import Mathlib

/-!
Verification of the RSS2 decoder of the Gofr feed normalizer
(`rss/rss2.go`): the timestamp normalizer `parseRSS2Time` with its
timezone-abbreviation substitution table, and the canonicalization step
`rss2Feed.Marshal` / `rss2Entry.Marshal` into the shared `Feed` / `Entry`
/ `Media` model.

Go strings are modelled as Lean `String` (operating on the character
list; the strings involved are ASCII, where byte-wise and char-wise
operations coincide).  Go's `time.Time` is modelled as a civil date-time
with a fixed-minutes UTC offset; two values denote the same instant when
they map to the same absolute second count.  Go slices that can be `nil`
are modelled as `Option (List _)` with `none` for the nil slice, and Go
pointer results as `Option _` with `none` for a nil pointer.  Go `error`
results are modelled as `Option String` carrying the error message
(`none` for a nil error).  `float32` arithmetic is modelled exactly over
`ℚ`.
-/

namespace Gofr

/-! ## String primitives (Go `strings` package, byte = ASCII char) -/

/-- Go `strings.Contains` on character lists: `pat` occurs as a
contiguous sublist of `l` (the empty pattern always occurs). -/
def containsSub : List Char → List Char → Bool
  | [], pat => pat.isEmpty
  | l@(_ :: t), pat => pat.isPrefixOf l || containsSub t pat

/-- Go `strings.Replace(s, old, new, 1)` on character lists: replace the
leftmost occurrence of `old` (insert at the front when `old` is empty). -/
def replaceFirstSub : List Char → List Char → List Char → List Char
  | l, old, new =>
    if old.isPrefixOf l then new ++ l.drop old.length
    else match l with
      | [] => []
      | c :: t => c :: replaceFirstSub t old new

/-- Go `strings.Contains`. -/
def strContains (s pat : String) : Bool := containsSub s.data pat.data

/-- Go `strings.Replace(s, old, new, 1)`. -/
def strReplaceFirst (s old new : String) : String :=
  ⟨replaceFirstSub s.data old.data new.data⟩

/-- Go `strings.HasSuffix`. -/
def strHasSuffix (s suffix : String) : Bool := suffix.data.isSuffixOf s.data

/-- Go `strings.ToLower`, restricted to its ASCII action (every string it
is applied to in the decoder is compared against ASCII keywords). -/
def lowerStr (s : String) : String := ⟨s.data.map Char.toLower⟩

/-- Helper of `strSplitSpace`: `cur` holds the current token reversed. -/
def splitSpaceAux : List Char → List Char → List String
  | [], cur => [⟨cur.reverse⟩]
  | c :: t, cur =>
    if c = ' ' then (⟨cur.reverse⟩ : String) :: splitSpaceAux t []
    else splitSpaceAux t (c :: cur)

/-- Go `strings.Split(s, " ")`: split on every single space, keeping
empty tokens. -/
def strSplitSpace (s : String) : List String := splitSpaceAux s.data []

/-! ## Civil date-time values (model of Go `time.Time`)

A parsed timestamp is a civil date-time plus a fixed UTC offset in
minutes.  The zero value is Go's `time.Time{}`: January 1, year 1,
00:00:00 UTC. -/

structure DateTime where
  year : Int
  month : Nat
  day : Nat
  hour : Nat
  minute : Nat
  second : Nat
  /-- Minutes east of UTC of the fixed zone attached to the value. -/
  offset : Int
deriving DecidableEq, Repr

/-- Go `time.Time{}`. -/
def zeroDateTime : DateTime :=
  { year := 1, month := 1, day := 1, hour := 0, minute := 0, second := 0, offset := 0 }

/-- Leap-year rule of the proleptic Gregorian calendar (Go `isLeap`). -/
def isLeap (y : Int) : Bool := y % 4 == 0 && (y % 100 != 0 || y % 400 == 0)

/-- Number of days of a month (Go `daysIn`); months outside 1..12 get 31,
they are rejected elsewhere. -/
def daysInMonth (m : Nat) (y : Int) : Nat :=
  if m = 2 then (if isLeap y then 29 else 28)
  else if m = 4 ∨ m = 6 ∨ m = 9 ∨ m = 11 then 30
  else 31

/-- Days since 1970-01-01 of a civil date (Howard Hinnant's
`days_from_civil`, the algorithm underlying Go's absolute-time
conversion). -/
def daysFromCivil (y : Int) (m d : Nat) : Int :=
  let y' : Int := if m ≤ 2 then y - 1 else y
  let era : Int := Int.fdiv y' 400
  let yoe : Int := y' - era * 400
  let mp : Int := if m ≤ 2 then (m : Int) + 9 else (m : Int) - 3
  let doy : Int := (153 * mp + 2) / 5 + (d : Int) - 1
  let doe : Int := yoe * 365 + yoe / 4 - yoe / 100 + doy
  era * 146097 + doe - 719468

/-- Absolute second count of a date-time (its instant): two Go `time.Time`
values compare `Equal` exactly when this number agrees. -/
def toInstant (v : DateTime) : Int :=
  daysFromCivil v.year v.month v.day * 86400
    + (v.hour : Int) * 3600 + (v.minute : Int) * 60 + (v.second : Int)
    - v.offset * 60

/-- Weekday index of a date, 0 = Sunday (1970-01-01 was a Thursday). -/
def weekdayIdx (v : DateTime) : Nat :=
  ((daysFromCivil v.year v.month v.day + 4).emod 7).toNat

/-! ## Go `time.Parse` / `time.Format` for the reference layouts

Each Go layout string used by the decoder is translated into the list of
standard chunks Go's `nextStdChunk` recognizes in it; parsing and
formatting interpret the chunk list exactly as Go's `Parse` and `Format`
do for these chunks (fixed- and variable-width numbers, case-insensitive
name lookup, numeric zones, the implicit optional fractional second after
a seconds chunk, and the trailing-garbage and range checks). -/

/-- Value of an ASCII digit character. -/
def digitVal (c : Char) : Nat := c.toNat - 48

/-- ASCII digit character of a value below ten. -/
def digitCh : Nat → Char
  | 0 => '0' | 1 => '1' | 2 => '2' | 3 => '3' | 4 => '4'
  | 5 => '5' | 6 => '6' | 7 => '7' | 8 => '8' | _ => '9'

/-- Go `getnum` with `fixed = true` for two-digit chunks. -/
def getNum2Fixed : List Char → Option (Nat × List Char)
  | c1 :: c2 :: rest =>
    if c1.isDigit && c2.isDigit then some (digitVal c1 * 10 + digitVal c2, rest) else none
  | _ => none

/-- Go `getnum` with `fixed = false`: one digit, or two when a second
digit follows. -/
def getNum2 : List Char → Option (Nat × List Char)
  | c1 :: rest =>
    if c1.isDigit then
      match rest with
      | c2 :: rest2 =>
        if c2.isDigit then some (digitVal c1 * 10 + digitVal c2, rest2)
        else some (digitVal c1, rest)
      | [] => some (digitVal c1, [])
    else none
  | [] => none

/-- Four fixed digits (Go's `stdLongYear` handling). -/
def getNum4 : List Char → Option (Nat × List Char)
  | c1 :: c2 :: c3 :: c4 :: rest =>
    if c1.isDigit && c2.isDigit && c3.isDigit && c4.isDigit then
      some (digitVal c1 * 1000 + digitVal c2 * 100 + digitVal c3 * 10 + digitVal c4, rest)
    else none
  | _ => none

/-- Go's `shortDayNames`. -/
def shortDayNames : List String := ["Sun", "Mon", "Tue", "Wed", "Thu", "Fri", "Sat"]

/-- Go's `shortMonthNames`. -/
def shortMonthNames : List String :=
  ["Jan", "Feb", "Mar", "Apr", "May", "Jun", "Jul", "Aug", "Sep", "Oct", "Nov", "Dec"]

/-- Go's `longMonthNames`. -/
def longMonthNames : List String :=
  ["January", "February", "March", "April", "May", "June", "July", "August",
   "September", "October", "November", "December"]

/-- Go's byte-wise case folding in `match`: two ASCII characters agree up
to letter case. -/
def ciEq (a b : Char) : Bool := a.toLower == b.toLower

/-- Pattern `pat` starts string `s`, compared case-insensitively. -/
def ciHeads : List Char → List Char → Bool
  | [], _ => true
  | _ :: _, [] => false
  | p :: ps, c :: cs => ciEq p c && ciHeads ps cs

/-- Go's `lookup`: first table name that starts the input
(case-insensitively); yields the name's index and the rest of the
input. -/
def lookupName : List String → Nat → List Char → Option (Nat × List Char)
  | [], _, _ => none
  | n :: ns, i, s =>
    if ciHeads n.data s then some (i, s.drop n.data.length) else lookupName ns (i + 1) s

/-- Sign character of a numeric zone. -/
def signOf : Char → Option Int
  | '+' => some 1
  | '-' => some (-1)
  | _ => none

/-- Uppercase ASCII letter test (zone-abbreviation characters). -/
def isUpperAscii (c : Char) : Bool := 'A' ≤ c && c ≤ 'Z'

/-- Go's implicit fractional second: after a seconds chunk, a period or
comma followed by a digit consumes the period and the digit run (the
nanoseconds are dropped; the model has second precision and no claim
involves them). -/
def skipFrac : List Char → List Char
  | c1 :: c2 :: rest =>
    if (c1 == '.' || c1 == ',') && c2.isDigit then (c2 :: rest).dropWhile Char.isDigit
    else c1 :: c2 :: rest
  | l => l

/-- Standard layout chunks appearing in the decoder's layout strings, in
Go's reference-time notation. -/
inductive FmtTok where
  /-- Literal text between chunks. -/
  | lit (l : List Char)
  /-- `Mon` -/
  | dayName
  /-- `02` -/
  | day2
  /-- `2` -/
  | day1
  /-- `01` -/
  | month2
  /-- `Jan` -/
  | monthShort
  /-- `January` -/
  | monthLong
  /-- `2006` -/
  | year4
  /-- `06` -/
  | year2
  /-- `15` -/
  | hourNum
  /-- `04` -/
  | min2
  /-- `05` -/
  | sec2
  /-- `-0700` -/
  | offHHMM
  /-- `-07:00` -/
  | offColon
  /-- `MST`: three uppercase letters; under the decoder's GMT/UTC suffix
  guard the named zone carries offset zero. -/
  | tzAbbr
deriving DecidableEq, Repr

/-- Partially parsed components with Go's defaults (year 0, month and day
1, the rest 0, zone UTC). -/
structure ParseAcc where
  year : Int := 0
  month : Nat := 1
  day : Nat := 1
  hour : Nat := 0
  minute : Nat := 0
  second : Nat := 0
  offset : Int := 0
deriving DecidableEq, Repr

/-- Parse one chunk from the input, updating the accumulated components
(Go's per-chunk cases in `Parse`, including the per-chunk range
checks). -/
def parseTok : FmtTok → List Char → ParseAcc → Option (List Char × ParseAcc)
  | .lit l, s, acc => if l.isPrefixOf s then some (s.drop l.length, acc) else none
  | .dayName, s, acc =>
    match lookupName shortDayNames 0 s with
    | some (_, rest) => some (rest, acc)
    | none => none
  | .day2, s, acc =>
    match getNum2Fixed s with
    | some (d, rest) => some (rest, { acc with day := d })
    | none => none
  | .day1, s, acc =>
    match getNum2 s with
    | some (d, rest) => some (rest, { acc with day := d })
    | none => none
  | .month2, s, acc =>
    match getNum2Fixed s with
    | some (m, rest) =>
      if 1 ≤ m ∧ m ≤ 12 then some (rest, { acc with month := m }) else none
    | none => none
  | .monthShort, s, acc =>
    match lookupName shortMonthNames 0 s with
    | some (i, rest) => some (rest, { acc with month := i + 1 })
    | none => none
  | .monthLong, s, acc =>
    match lookupName longMonthNames 0 s with
    | some (i, rest) => some (rest, { acc with month := i + 1 })
    | none => none
  | .year4, s, acc =>
    match getNum4 s with
    | some (y, rest) => some (rest, { acc with year := (y : Int) })
    | none => none
  | .year2, s, acc =>
    match getNum2Fixed s with
    | some (y, rest) =>
      some (rest, { acc with year := if 69 ≤ y then (1900 + y : Int) else (2000 + y : Int) })
    | none => none
  | .hourNum, s, acc =>
    match getNum2 s with
    | some (h, rest) => if h ≤ 23 then some (rest, { acc with hour := h }) else none
    | none => none
  | .min2, s, acc =>
    match getNum2Fixed s with
    | some (m, rest) => if m ≤ 59 then some (rest, { acc with minute := m }) else none
    | none => none
  | .sec2, s, acc =>
    match getNum2Fixed s with
    | some (x, rest) => if x ≤ 59 then some (skipFrac rest, { acc with second := x }) else none
    | none => none
  | .offHHMM, s, acc =>
    match s with
    | c :: rest =>
      match signOf c with
      | some sg =>
        match getNum2Fixed rest with
        | some (h, rest1) =>
          match getNum2Fixed rest1 with
          | some (m, rest2) =>
            some (rest2, { acc with offset := sg * ((h : Int) * 60 + (m : Int)) })
          | none => none
        | none => none
      | none => none
    | [] => none
  | .offColon, s, acc =>
    match s with
    | c :: rest =>
      match signOf c with
      | some sg =>
        match getNum2Fixed rest with
        | some (h, rest1) =>
          match rest1 with
          | ':' :: rest1' =>
            match getNum2Fixed rest1' with
            | some (m, rest2) =>
              some (rest2, { acc with offset := sg * ((h : Int) * 60 + (m : Int)) })
            | none => none
          | _ => none
        | none => none
      | none => none
    | [] => none
  | .tzAbbr, s, acc =>
    match s with
    | c1 :: c2 :: c3 :: rest =>
      if isUpperAscii c1 && isUpperAscii c2 && isUpperAscii c3 then
        some (rest, { acc with offset := 0 })
      else none
    | _ => none

/-- Run a chunk list over the input. -/
def runToks : List FmtTok → List Char → ParseAcc → Option (List Char × ParseAcc)
  | [], s, acc => some (s, acc)
  | t :: ts, s, acc =>
    match parseTok t s acc with
    | some (s', acc') => runToks ts s' acc'
    | none => none

/-- Go `time.Parse` of one layout: every chunk must match, the whole
input must be consumed, and the day must exist in the parsed month
(Go's trailing-text and `day out of range` checks). -/
def goParse (toks : List FmtTok) (s : String) : Option DateTime :=
  match runToks toks s.data {} with
  | some ([], a) =>
    if 1 ≤ a.day ∧ a.day ≤ daysInMonth a.month a.year then
      some ⟨a.year, a.month, a.day, a.hour, a.minute, a.second, a.offset⟩
    else none
  | _ => none

/-- Two-digit zero-padded rendering. -/
def pad2 (n : Nat) : List Char := [digitCh (n / 10), digitCh (n % 10)]

/-- Four-digit zero-padded rendering. -/
def pad4 (n : Nat) : List Char :=
  [digitCh (n / 1000), digitCh (n / 100 % 10), digitCh (n / 10 % 10), digitCh (n % 10)]

/-- Unpadded day rendering (`2`): one digit below ten, two otherwise. -/
def noPad2 (n : Nat) : List Char := if n < 10 then [digitCh n] else pad2 n

/-- `±hhmm` rendering of an offset in minutes. -/
def signedOff (off : Int) : List Char :=
  (if off < 0 then '-' else '+') :: (pad2 (off.natAbs / 60) ++ pad2 (off.natAbs % 60))

/-- `±hh:mm` rendering of an offset in minutes. -/
def signedOffColon (off : Int) : List Char :=
  (if off < 0 then '-' else '+') :: (pad2 (off.natAbs / 60) ++ ':' :: pad2 (off.natAbs % 60))

/-- Short weekday name of an index (0 = Sunday). -/
def shortDayName (k : Nat) : String := shortDayNames.getD k "Sun"

/-- Short month name of a month number (1 = January). -/
def shortMonthName (m : Nat) : String := shortMonthNames.getD (m - 1) "Jan"

/-- Long month name of a month number (1 = January). -/
def longMonthName (m : Nat) : String := longMonthNames.getD (m - 1) "January"

/-- Go `time.Format` of one chunk. -/
def renderTok : FmtTok → DateTime → List Char
  | .lit l, _ => l
  | .dayName, v => (shortDayName (weekdayIdx v)).data
  | .day2, v => pad2 v.day
  | .day1, v => noPad2 v.day
  | .month2, v => pad2 v.month
  | .monthShort, v => (shortMonthName v.month).data
  | .monthLong, v => (longMonthName v.month).data
  | .year4, v => pad4 v.year.toNat
  | .year2, v => pad2 (v.year.emod 100).toNat
  | .hourNum, v => pad2 v.hour
  | .min2, v => pad2 v.minute
  | .sec2, v => pad2 v.second
  | .offHHMM, v => signedOff v.offset
  | .offColon, v => signedOffColon v.offset
  | .tzAbbr, _ => ['U', 'T', 'C']

/-- Go `time.Format` of a chunk list. -/
def renderToks : List FmtTok → DateTime → List Char
  | [], _ => []
  | t :: ts, v => renderTok t v ++ renderToks ts v

/-- Go `time.Format` of a layout as a string. -/
def goFormat (toks : List FmtTok) (v : DateTime) : String := ⟨renderToks toks v⟩

/-! ## The decoder's layout list (rss2.go, `supportedRSS2TimeFormats`)

Shared chunk segments of the layout strings, then the ten layouts in
their source order. -/

/-- `"Mon, "` -/
def segWD : List FmtTok := [.dayName, .lit [',', ' ']]

/-- `"02 Jan "` -/
def segD2 : List FmtTok := [.day2, .lit [' '], .monthShort, .lit [' ']]

/-- `"2 Jan "` -/
def segD1 : List FmtTok := [.day1, .lit [' '], .monthShort, .lit [' ']]

/-- `"2006 "` -/
def segY4 : List FmtTok := [.year4, .lit [' ']]

/-- `"06 "` -/
def segY2 : List FmtTok := [.year2, .lit [' ']]

/-- `"15:04:05"` -/
def segHMS : List FmtTok := [.hourNum, .lit [':'], .min2, .lit [':'], .sec2]

/-- `"15:04"` -/
def segHM : List FmtTok := [.hourNum, .lit [':'], .min2]

/-- `"Mon, 02 Jan 2006 15:04:05 -0700"` -/
def fmt0 : List FmtTok := segWD ++ (segD2 ++ (segY4 ++ (segHMS ++ [.lit [' '], .offHHMM])))

/-- `"2006-01-02T15:04:05-07:00"` -/
def fmt1 : List FmtTok :=
  [.year4, .lit ['-'], .month2, .lit ['-'], .day2, .lit ['T']] ++ (segHMS ++ [.offColon])

/-- `"Mon, 02 Jan 2006 15:04:05 Z"` (the lone `Z` is literal text). -/
def fmt2 : List FmtTok := segWD ++ (segD2 ++ (segY4 ++ (segHMS ++ [.lit [' ', 'Z']])))

/-- `"Mon, 02 Jan 2006 15:04:05"` -/
def fmt3 : List FmtTok := segWD ++ (segD2 ++ (segY4 ++ segHMS))

/-- `"Mon, 2 Jan 2006 15:04:05 -0700"` -/
def fmt4 : List FmtTok := segWD ++ (segD1 ++ (segY4 ++ (segHMS ++ [.lit [' '], .offHHMM])))

/-- `"Mon, 2 Jan 2006 15:04:05"` -/
def fmt5 : List FmtTok := segWD ++ (segD1 ++ (segY4 ++ segHMS))

/-- `"2 Jan 2006 15:04:05 -0700"` -/
def fmt6 : List FmtTok := segD1 ++ (segY4 ++ (segHMS ++ [.lit [' '], .offHHMM]))

/-- `"Mon, 2 Jan 2006 15:04 -0700"` -/
def fmt7 : List FmtTok := segWD ++ (segD1 ++ (segY4 ++ (segHM ++ [.lit [' '], .offHHMM])))

/-- `"Mon, 2 Jan 06 15:04:05 -0700"` -/
def fmt8 : List FmtTok := segWD ++ (segD1 ++ (segY2 ++ (segHMS ++ [.lit [' '], .offHHMM])))

/-- `"January 2, 2006"` -/
def fmt9 : List FmtTok := [.monthLong, .lit [' '], .day1, .lit [',', ' '], .year4]

/-- The decoder's layout list, in source order. -/
def supportedRSS2TimeFormats : List (List FmtTok) :=
  [fmt0, fmt1, fmt2, fmt3, fmt4, fmt5, fmt6, fmt7, fmt8, fmt9]

/-- `"Mon, 2 Jan 2006 15:04:05 MST"`, the layout of the GMT/UTC-suffix
retry. -/
def fmtMST : List FmtTok := segWD ++ (segD1 ++ (segY4 ++ (segHMS ++ [.lit [' '], .tzAbbr])))

/-! ## Timezone-abbreviation table (rss2.go, `tzMap` / `timezones`) -/

/-- Timezone abbreviation with its fixed numeric offset. -/
structure timezone where
  Code : String
  Offset : String
deriving DecidableEq, Repr

/-- `tzMap` of rss2.go, as an association list in source-literal order. -/
def tzMap : List (String × String) :=
  [("EEST", "+0300"), ("AKST", "-0900"), ("AKDT", "-0800"), ("HAST", "-1000"),
   ("HADT", "-0900"), ("CHST", "+1000"), ("EET", "+0200"), ("AST", "-0400"),
   ("EST", "-0500"), ("EDT", "-0400"), ("CST", "-0600"), ("CDT", "-0500"),
   ("MST", "-0700"), ("MDT", "-0600"), ("PST", "-0800"), ("PDT", "-0700"),
   ("SST", "-1100"), ("SDT", "-1000"), ("CET", "+0100")]

/-- The array `init` builds from `tzMap` and sorts by descending code
length (`sort.Sort(timezones)` with `timezoneList.Less`).  The literal
order of `tzMap` is already sorted that way, so this list is an
admissible outcome of the (order-unspecified) map iteration followed by
the (unstable) sort; every admissible outcome agrees on the partition by
code length, which is all the scan below depends on. -/
def timezones : List timezone := tzMap.map fun p => ⟨p.1, p.2⟩

/-! ## The timestamp normalizer (rss2.go, `parseTime` / `parseRSS2Time`) -/

/-- Modelled from the spec: the shared `parseTime` helper (declared
outside the RSS2 source file) attempts "parsing against an ordered list
of known literal date/time layouts"; the "first successful match wins".
`none` is its non-nil error result. -/
def parseTime (formats : List (List FmtTok)) (timeSpec : String) : Option DateTime :=
  formats.findSome? fun f => goParse f timeSpec

/-- rss2.go `parseRSS2Time`: layout list, then the GMT/UTC-suffix retry
(whose parsed zone carries offset zero, so the final `.UTC()` conversion
leaves the components unchanged), then one timezone-code substitution
(first table entry whose code occurs in the string, first occurrence
replaced) with one retry of the layout list; the error message is built
from `timeSpec` as it stands at that point. -/
def parseRSS2Time (timeSpec : String) : DateTime × Option String :=
  if timeSpec ≠ "" then
    match parseTime supportedRSS2TimeFormats timeSpec with
    | some parsedTime => (parsedTime, none)
    | none =>
      match
        if strHasSuffix timeSpec " GMT" || strHasSuffix timeSpec " UTC" then
          goParse fmtMST timeSpec
        else none
      with
      | some parsedTime => (parsedTime, none)
      | none =>
        match timezones.find? fun tz => strContains timeSpec tz.Code with
        | some tz =>
          let timeSpec' := strReplaceFirst timeSpec tz.Code tz.Offset
          match parseTime supportedRSS2TimeFormats timeSpec' with
          | some parsedTime => (parsedTime, none)
          | none => (zeroDateTime, some ("Unrecognized time format: " ++ timeSpec'))
        | none => (zeroDateTime, some ("Unrecognized time format: " ++ timeSpec))
  else (zeroDateTime, none)

/-! ## Canonical model and intermediate RSS2 structures -/

/-- Modelled from the spec: `Media` of the canonical model (declared
outside the RSS2 source file) — a flattened enclosure with `URL` and
`Type`; the length metadata is dropped in canonicalization. -/
structure Media where
  URL : String
  «Type» : String
deriving DecidableEq, Repr

/-- Modelled from the spec: `Entry` of the canonical model (declared
outside the RSS2 source file): identifier, text fields, resolved
content, normalized `Published` timestamp, and the `Media` sequence
(`Option` for the Go slice, `none` being nil). -/
structure Entry where
  GUID : String
  Author : String
  Title : String
  Content : String
  Published : DateTime
  WWWURL : String
  Media : Option (List Media)
deriving DecidableEq, Repr

/-- Modelled from the spec: `Feed` of the canonical model (declared
outside the RSS2 source file).  `Entries` is a Go `[]*Entry`: `none` is
the nil slice and each element is a possibly-nil pointer.
`HourlyUpdateFrequency` is a `float32` in Go, modelled exactly over
`ℚ`. -/
structure Feed where
  Title : String
  Description : String
  Updated : DateTime
  WWWURL : String
  Format : String
  Topic : String
  HubURL : String
  HourlyUpdateFrequency : ℚ
  Entries : Option (List (Option Entry))
deriving DecidableEq, Repr

/-- Modelled from the spec: the shared `rssLink` intermediate (declared
outside the RSS2 source file), an XML `<link>` element with its
namespace (`XMLName.Space`), character content, and `rel` / `href`
attributes, as used by `rss2Feed.Marshal`. -/
structure rssLink where
  Space : String
  Content : String
  Rel : String
  Href : String
deriving DecidableEq, Repr

/-- rss2.go `rss2Enclosure`. -/
structure rss2Enclosure where
  URL : String
  Length : Int
  «Type» : String
deriving DecidableEq, Repr

/-- rss2.go `rss2Entry`.  `Enclosures` is a Go slice (`none` = nil). -/
structure rss2Entry where
  Id : String
  Published : String
  EntryTitle : String
  Link : String
  Author : String
  EncodedContent : String
  Content : String
  Enclosures : Option (List rss2Enclosure)
deriving DecidableEq, Repr

/-- rss2.go `rss2Feed`.  `Link` and `Entry` are Go slices of pointers
(`none` = nil slice); the XML decoder never stores nil element pointers,
so the elements are modelled directly. -/
structure rss2Feed where
  Title : String
  Description : String
  Updated : String
  Link : Option (List rssLink)
  Entry : Option (List rss2Entry)
  UpdatePeriod : String
  UpdateFrequency : Int
deriving DecidableEq, Repr

/-- The Atom namespace recognized by the link loop. -/
def atomNS : String := "http://www.w3.org/2005/Atom"

/-! ## Canonicalization (rss2.go, the `Marshal` methods) -/

/-- rss2.go `rss2Entry.Marshal`: resolves content (encoded wins when
non-empty), parses the `pubDate` when present, and always constructs an
entry (first component `some _`), returning the parse error alongside
it. -/
def rss2Entry.Marshal (nativeEntry : rss2Entry) : Option Entry × Option String :=
  let guid := nativeEntry.Id
  let content :=
    if nativeEntry.EncodedContent = "" then nativeEntry.Content else nativeEntry.EncodedContent
  let pub :=
    if nativeEntry.Published ≠ "" then parseRSS2Time nativeEntry.Published
    else (zeroDateTime, none)
  (some
    { GUID := guid
      Author := nativeEntry.Author
      Title := nativeEntry.EntryTitle
      Content := content
      Published := pub.1
      WWWURL := nativeEntry.Link
      Media := some ((nativeEntry.Enclosures.getD []).map fun enclosure =>
        { URL := enclosure.URL, «Type» := enclosure.«Type» }) },
   pub.2)

/-- One step of the link loop of `rss2Feed.Marshal` over the running
`(linkUrl, topic, hubURL)` state: a namespace-less link stores its
content as the site URL; an Atom-namespaced link scans its
space-separated `rel` tokens and stops at the first one equal to
`"self"` (storing `href` as topic) or `"hub"` (storing `href` as hub
URL); other links change nothing. -/
def linkStep (st : String × String × String) (link : rssLink) : String × String × String :=
  if link.Space = "" then (link.Content, st.2.1, st.2.2)
  else if link.Space = atomNS then
    match (strSplitSpace link.Rel).find? fun rel => rel == "self" || rel == "hub" with
    | some rel =>
      if rel = "self" then (st.1, link.Href, st.2.2) else (st.1, st.2.1, link.Href)
    | none => st
  else st

/-- One step of the entry loop of `rss2Feed.Marshal`: append the
marshaled entry and keep the first non-nil error. -/
def entryStep (acc : List (Option Entry) × Option String) (v : rss2Entry) :
    List (Option Entry) × Option String :=
  let m := rss2Entry.Marshal v
  (acc.1 ++ [m.1], if m.2 ≠ none ∧ acc.2 = none then m.2 else acc.2)

/-- rss2.go `rss2Feed.Marshal`: parses `lastBuildDate` when present,
runs the link loop, computes the hourly update frequency from the
period/frequency pair, and marshals the items (allocating `Entries`
only when the item slice is non-nil), returning the first error
encountered. -/
def rss2Feed.Marshal (nativeFeed : rss2Feed) : Feed × Option String :=
  let upd :=
    if nativeFeed.Updated ≠ "" then parseRSS2Time nativeFeed.Updated
    else (zeroDateTime, none)
  let links := (nativeFeed.Link.getD []).foldl linkStep ("", "", "")
  let hourlyUpdateFrequency : ℚ :=
    if nativeFeed.UpdateFrequency ≠ 0 ∧ nativeFeed.UpdatePeriod ≠ "" then
      let updateFrequency : ℚ := (nativeFeed.UpdateFrequency : ℚ)
      let updatePeriod := lowerStr nativeFeed.UpdatePeriod
      if updatePeriod = "hourly" then 1 / updateFrequency
      else if updatePeriod = "weekly" then (24 * 7) / updateFrequency
      else if updatePeriod = "monthly" then (24 * 30.42) / updateFrequency
      else if updatePeriod = "yearly" then (24 * 365.25) / updateFrequency
      else 24 / updateFrequency
    else 0
  let feedBase : Feed :=
    { Title := nativeFeed.Title
      Description := nativeFeed.Description
      Updated := upd.1
      WWWURL := links.1
      Format := "RSS2"
      Topic := links.2.1
      HubURL := links.2.2
      HourlyUpdateFrequency := hourlyUpdateFrequency
      Entries := none }
  match nativeFeed.Entry with
  | none => (feedBase, upd.2)
  | some items =>
    let res := items.foldl entryStep ([], upd.2)
    ({ feedBase with Entries := some res.1 }, res.2)

/-! ## Derived notions used by the statements -/

/-- A namespace-less `<link>` element (site URL). -/
def isPlainLink (l : rssLink) : Bool := l.Space == ""

/-- First `rel` token of a link that is `"self"` or `"hub"` — the token
at which the inner loop of the link scan stops. -/
def relHit (l : rssLink) : Option String :=
  (strSplitSpace l.Rel).find? fun rel => rel == "self" || rel == "hub"

/-- An Atom-namespaced link whose rel scan stops at `"self"`. -/
def isSelfLink (l : rssLink) : Bool := l.Space == atomNS && relHit l == some "self"

/-- An Atom-namespaced link whose rel scan stops at `"hub"`. -/
def isHubLink (l : rssLink) : Bool := l.Space == atomNS && relHit l == some "hub"

/-- Value of the last link matching `p` under `g`, or `dflt` when none
matches (the loop's last-assignment-wins behavior). -/
def lastMatch (p : rssLink → Bool) (g : rssLink → String) (dflt : String)
    (links : List rssLink) : String :=
  links.foldl (fun acc l => if p l then g l else acc) dflt

/-- The first error among the marshaled entries, in document order. -/
def firstEntryError (items : List rss2Entry) : Option String :=
  items.findSome? fun it => (rss2Entry.Marshal it).2

/-- A date-time value is renderable under a layout when formatting it
under that layout loses nothing the layout records: a valid civil
date-time, a year within the layout's year-chunk range, an offset the
layout's zone chunk can express (and UTC when the layout has no zone
chunk), and zero for time components the layout omits. -/
def renderable (L : List FmtTok) (v : DateTime) : Prop :=
  1 ≤ v.month ∧ v.month ≤ 12 ∧ 1 ≤ v.day ∧ v.day ≤ daysInMonth v.month v.year ∧
  v.hour ≤ 23 ∧ v.minute ≤ 59 ∧ v.second ≤ 59 ∧
  (if FmtTok.year2 ∈ L then 1969 ≤ v.year ∧ v.year ≤ 2068
   else 1 ≤ v.year ∧ v.year ≤ 9999) ∧
  (if FmtTok.offHHMM ∈ L ∨ FmtTok.offColon ∈ L then v.offset.natAbs ≤ 1439
   else v.offset = 0) ∧
  (FmtTok.sec2 ∉ L → v.second = 0) ∧
  (FmtTok.hourNum ∉ L → v.hour = 0 ∧ v.minute = 0)

instance (L : List FmtTok) (v : DateTime) : Decidable (renderable L v) := by
  unfold renderable; infer_instance

/-- The input does not start with a digit (so a variable-width number
chunk before it stops after one digit). -/
def noDigitHead : List Char → Bool
  | [] => true
  | c :: _ => !c.isDigit

/-- The input does not start with a period or comma (so the implicit
fractional second after a seconds chunk does not trigger). -/
def noFracHead : List Char → Bool
  | [] => true
  | c :: _ => !(c == '.' || c == ',')

/-! ## Structural lemmas about the normalizer and the marshal loops -/

/-- Unfolding of `parseRSS2Time` on a non-empty input. -/
theorem parseRSS2Time_eq (s : String) (hs : s ≠ "") :
    parseRSS2Time s =
      match parseTime supportedRSS2TimeFormats s with
      | some t => (t, none)
      | none =>
        match
          if (strHasSuffix s " GMT" || strHasSuffix s " UTC") = true then goParse fmtMST s
          else none
        with
        | some t => (t, none)
        | none =>
          match timezones.find? fun tz => strContains s tz.Code with
          | some tz =>
            match parseTime supportedRSS2TimeFormats (strReplaceFirst s tz.Code tz.Offset) with
            | some t => (t, none)
            | none =>
              (zeroDateTime,
                some ("Unrecognized time format: " ++ strReplaceFirst s tz.Code tz.Offset))
          | none => (zeroDateTime, some ("Unrecognized time format: " ++ s))
    := by
  rw [parseRSS2Time, if_pos hs]

/-- A successful first-pass parse is returned with a nil error. -/
theorem parseRSS2Time_of_parseTime {s : String} {t : DateTime} (hs : s ≠ "")
    (h : parseTime supportedRSS2TimeFormats s = some t) :
    parseRSS2Time s = (t, none) := by
  rw [parseRSS2Time_eq s hs, h]

/-- Every result of the normalizer either has a nil error or the zero
timestamp. -/
theorem parseRSS2Time_shape (s : String) :
    (parseRSS2Time s).2 = none ∨ (parseRSS2Time s).1 = zeroDateTime := by
  by_cases hs : s = ""
  · left; simp [hs, parseRSS2Time]
  · rw [parseRSS2Time_eq s hs]
    split
    · left; rfl
    · split
      · left; rfl
      · split
        · split
          · left; rfl
          · right; rfl
        · right; rfl

/-- Whenever the normalizer reports an error, the timestamp is the zero
value. -/
theorem parseRSS2Time_error_zero (s : String) {msg : String}
    (h : (parseRSS2Time s).2 = some msg) : (parseRSS2Time s).1 = zeroDateTime := by
  rcases parseRSS2Time_shape s with h1 | h1
  · rw [h1] at h; exact absurd h (by simp)
  · exact h1

/-- The entry loop marshals every item in order, prepending nothing and
dropping nothing. -/
theorem entryFold_fst (items : List rss2Entry) :
    ∀ (l0 : List (Option Entry)) (e0 : Option String),
      (items.foldl entryStep (l0, e0)).1 = l0 ++ items.map fun it => (rss2Entry.Marshal it).1 := by
  induction items with
  | nil => intro l0 e0; simp
  | cons it t ih =>
    intro l0 e0
    simp only [List.foldl_cons, List.map_cons, entryStep, ih]
    simp

/-- One entry-loop step from an already-recorded error keeps it. -/
theorem entryStep_some (l0 : List (Option Entry)) (e : String) (v : rss2Entry) :
    entryStep (l0, some e) v = (l0 ++ [(rss2Entry.Marshal v).1], some e) := by
  simp only [entryStep]
  rw [if_neg (by simp)]

/-- One entry-loop step from a clean state records the entry's error. -/
theorem entryStep_none (l0 : List (Option Entry)) (v : rss2Entry) :
    entryStep (l0, none) v = (l0 ++ [(rss2Entry.Marshal v).1], (rss2Entry.Marshal v).2) := by
  cases h : (rss2Entry.Marshal v).2 with
  | some e => simp only [entryStep, h]; rw [if_pos (by simp)]
  | none => simp only [entryStep, h]; rw [if_neg (by simp)]

/-- An error already recorded before the entry loop is kept. -/
theorem entryFold_snd_some (items : List rss2Entry) :
    ∀ (l0 : List (Option Entry)) (e : String),
      (items.foldl entryStep (l0, some e)).2 = some e := by
  induction items with
  | nil => intro l0 e; simp
  | cons it t ih =>
    intro l0 e
    rw [List.foldl_cons, entryStep_some]
    exact ih _ _

/-- With no earlier error, the entry loop records the first entry-level
error in document order. -/
theorem entryFold_snd_none (items : List rss2Entry) :
    ∀ (l0 : List (Option Entry)),
      (items.foldl entryStep (l0, none)).2 = firstEntryError items := by
  induction items with
  | nil => intro l0; simp [firstEntryError]
  | cons it t ih =>
    intro l0
    rw [List.foldl_cons, entryStep_none]
    cases h : (rss2Entry.Marshal it).2 with
    | some e =>
      rw [entryFold_snd_some t _ e]
      simp [firstEntryError, List.findSome?_cons, h]
    | none =>
      rw [ih _]
      simp [firstEntryError, List.findSome?_cons, h]

/-- With a non-nil item slice, `Entries` holds the marshaled items in
document order. -/
theorem Marshal_entries {f : rss2Feed} {items : List rss2Entry} (h : f.Entry = some items) :
    (rss2Feed.Marshal f).1.Entries = some (items.map fun it => (rss2Entry.Marshal it).1) := by
  simp only [rss2Feed.Marshal, h, entryFold_fst, List.nil_append]

/-- With a nil item slice, `Entries` stays nil. -/
theorem Marshal_entries_nil {f : rss2Feed} (h : f.Entry = none) :
    (rss2Feed.Marshal f).1.Entries = none := by
  simp only [rss2Feed.Marshal, h]

/-- When the channel timestamp parses cleanly (or is absent), the
feed-level error is the first entry-level error. -/
theorem Marshal_err {f : rss2Feed} {items : List rss2Entry} (h : f.Entry = some items)
    (hupd : f.Updated = "" ∨ (parseRSS2Time f.Updated).2 = none) :
    (rss2Feed.Marshal f).2 = firstEntryError items := by
  have hu : (if f.Updated ≠ "" then parseRSS2Time f.Updated else (zeroDateTime, none)).2
      = none := by
    rcases hupd with h1 | h1
    · simp [h1]
    · by_cases h2 : f.Updated = "" <;> simp [h1, h2]
  simp only [rss2Feed.Marshal, h]
  rw [show (if f.Updated ≠ "" then parseRSS2Time f.Updated else (zeroDateTime, none)).2
      = none from hu]
  exact entryFold_snd_none items _

/-- The computed hourly update frequency of a marshaled feed. -/
theorem Marshal_hourly (f : rss2Feed) :
    (rss2Feed.Marshal f).1.HourlyUpdateFrequency =
      (if f.UpdateFrequency ≠ 0 ∧ f.UpdatePeriod ≠ "" then
        if lowerStr f.UpdatePeriod = "hourly" then 1 / (f.UpdateFrequency : ℚ)
        else if lowerStr f.UpdatePeriod = "weekly" then (24 * 7) / (f.UpdateFrequency : ℚ)
        else if lowerStr f.UpdatePeriod = "monthly" then (24 * 30.42) / (f.UpdateFrequency : ℚ)
        else if lowerStr f.UpdatePeriod = "yearly" then (24 * 365.25) / (f.UpdateFrequency : ℚ)
        else 24 / (f.UpdateFrequency : ℚ)
      else 0) := by
  simp only [rss2Feed.Marshal]
  cases hE : f.Entry <;> simp

/-! ## Claim C3 -/

/-- Claim C3: with a non-empty `updatePeriod` and non-zero
`updateFrequency` `f`, the marshaled feed's `HourlyUpdateFrequency` is
`1/f` for period `hourly`, `24/f` for `daily`, `168/f` for `weekly`,
`24*30.42/f` for `monthly`, `24*365.25/f` for `yearly` (the period
lower-cased before matching), any non-empty unmatched period falls back
to the daily formula, and with an empty period or zero frequency the
field stays zero.  (`float32` arithmetic is modelled exactly over
`ℚ`.) -/
theorem claim_C3 (f : rss2Feed) :
    (f.UpdatePeriod ≠ "" → f.UpdateFrequency ≠ 0 →
      ((lowerStr f.UpdatePeriod = "hourly" →
          (rss2Feed.Marshal f).1.HourlyUpdateFrequency = 1 / (f.UpdateFrequency : ℚ)) ∧
       (lowerStr f.UpdatePeriod = "daily" →
          (rss2Feed.Marshal f).1.HourlyUpdateFrequency = 24 / (f.UpdateFrequency : ℚ)) ∧
       (lowerStr f.UpdatePeriod = "weekly" →
          (rss2Feed.Marshal f).1.HourlyUpdateFrequency = 168 / (f.UpdateFrequency : ℚ)) ∧
       (lowerStr f.UpdatePeriod = "monthly" →
          (rss2Feed.Marshal f).1.HourlyUpdateFrequency
            = 24 * 30.42 / (f.UpdateFrequency : ℚ)) ∧
       (lowerStr f.UpdatePeriod = "yearly" →
          (rss2Feed.Marshal f).1.HourlyUpdateFrequency
            = 24 * 365.25 / (f.UpdateFrequency : ℚ)) ∧
       (lowerStr f.UpdatePeriod
            ∉ (["hourly", "daily", "weekly", "monthly", "yearly"] : List String) →
          (rss2Feed.Marshal f).1.HourlyUpdateFrequency = 24 / (f.UpdateFrequency : ℚ)))) ∧
    ((f.UpdatePeriod = "" ∨ f.UpdateFrequency = 0) →
      (rss2Feed.Marshal f).1.HourlyUpdateFrequency = 0) := by
  rw [Marshal_hourly]
  constructor
  · intro hp hf
    rw [if_pos ⟨hf, hp⟩]
    refine ⟨?_, ?_, ?_, ?_, ?_, ?_⟩ <;> intro h
    · rw [h, if_pos rfl]
    · rw [h, if_neg (by decide), if_neg (by decide), if_neg (by decide), if_neg (by decide)]
    · rw [h, if_neg (by decide), if_pos rfl]; norm_num
    · rw [h, if_neg (by decide), if_neg (by decide), if_pos rfl]
    · rw [h, if_neg (by decide), if_neg (by decide), if_neg (by decide), if_pos rfl]
    · simp only [List.mem_cons, List.not_mem_nil, or_false, not_or] at h
      obtain ⟨h1, h2, h3, h4, h5⟩ := h
      rw [if_neg h1, if_neg h3, if_neg h4, if_neg h5]
  · intro h
    rw [if_neg (by tauto)]

/-- Concrete instance of C3: `updatePeriod="weekly"`, `updateFrequency=2`
gives `168/2 = 84.0` updates per hour. -/
theorem claim_C3_witness :
    (rss2Feed.Marshal
      { Title := "t", Description := "d", Updated := "", Link := none, Entry := none,
        UpdatePeriod := "weekly", UpdateFrequency := 2 }).1.HourlyUpdateFrequency
      = (84 : ℚ) := by
  have h := (claim_C3
    { Title := "t", Description := "d", Updated := "", Link := none, Entry := none,
      UpdatePeriod := "weekly", UpdateFrequency := 2 }).1
    (by decide) (by decide) |>.2.2.1 (by decide)
  rw [h]; norm_num

/-! ## Link-loop lemmas and claim C7 -/

/-- One link-loop step updates exactly the component selected by the
link's class. -/
theorem linkStep_eq (st : String × String × String) (l : rssLink) :
    linkStep st l =
      (if isPlainLink l then l.Content else st.1,
       if isSelfLink l then l.Href else st.2.1,
       if isHubLink l then l.Href else st.2.2) := by
  unfold linkStep
  by_cases h1 : l.Space = ""
  · rw [if_pos h1]
    simp [isPlainLink, isSelfLink, isHubLink, h1, atomNS]
  · rw [if_neg h1]
    by_cases h2 : l.Space = atomNS
    · rw [if_pos h2]
      cases h3 : (strSplitSpace l.Rel).find? fun rel => rel == "self" || rel == "hub" with
      | none => simp [isPlainLink, isSelfLink, isHubLink, relHit, atomNS, h1, h2, h3]
      | some r =>
        have hr := List.find?_some h3
        by_cases h4 : r = "self"
        · subst h4
          simp [isPlainLink, isSelfLink, isHubLink, relHit, atomNS, h1, h2, h3]
        · have h5 : r = "hub" := by
            simp only [Bool.or_eq_true, beq_iff_eq] at hr
            tauto
          subst h5
          simp [isPlainLink, isSelfLink, isHubLink, relHit, atomNS, h1, h2, h3]
    · rw [if_neg h2]
      simp [isPlainLink, isSelfLink, isHubLink, relHit, h1, h2]

/-- The link loop computes, per component, the last matching link's
value. -/
theorem linkFold (links : List rssLink) (a b c : String) :
    links.foldl linkStep (a, b, c) =
      (lastMatch isPlainLink (fun l => l.Content) a links,
       lastMatch isSelfLink (fun l => l.Href) b links,
       lastMatch isHubLink (fun l => l.Href) c links) := by
  induction links generalizing a b c with
  | nil => simp [lastMatch]
  | cons l t ih =>
    rw [List.foldl_cons, linkStep_eq, ih]
    simp [lastMatch]

/-- Link-derived fields of a marshaled feed. -/
theorem Marshal_links (f : rss2Feed) :
    (rss2Feed.Marshal f).1.WWWURL
        = lastMatch isPlainLink (fun l => l.Content) "" (f.Link.getD []) ∧
    (rss2Feed.Marshal f).1.Topic
        = lastMatch isSelfLink (fun l => l.Href) "" (f.Link.getD []) ∧
    (rss2Feed.Marshal f).1.HubURL
        = lastMatch isHubLink (fun l => l.Href) "" (f.Link.getD []) := by
  simp only [rss2Feed.Marshal, linkFold]
  cases hE : f.Entry <;> simp

/-- Claim C7, corrected: the link loop maps the last namespace-less
link's text to `WWWURL`; for each Atom-namespaced link, the scan of its
space-separated rel tokens stops at the first token equal to `"self"` or
`"hub"` — `"self"` routes the href to `Topic` and `"hub"` to `HubURL`
(the last matching link per field winning) — so a link whose first
matching token is `"hub"` never sets `Topic` even when `"self"` occurs
later in its rel list, and links matching neither leave the fields
empty. -/
theorem claim_C7 (f : rss2Feed) (links : List rssLink) (h : f.Link = some links) :
    (rss2Feed.Marshal f).1.WWWURL = lastMatch isPlainLink (fun l => l.Content) "" links ∧
    (rss2Feed.Marshal f).1.Topic = lastMatch isSelfLink (fun l => l.Href) "" links ∧
    (rss2Feed.Marshal f).1.HubURL = lastMatch isHubLink (fun l => l.Href) "" links := by
  have hm := Marshal_links f
  rw [h] at hm
  simpa using hm

/-- Counterexample to claim C7 as stated: an Atom-namespaced link with
`rel="hub self"` has `"self"` in its space-separated rel list, yet the
marshaled feed's `Topic` stays empty (the scan stopped at `"hub"`, which
got the href). -/
theorem claim_C7_counterexample :
    ("self" ∈ strSplitSpace "hub self") ∧
    (rss2Feed.Marshal
      { Title := "", Description := "", Updated := "",
        Link := some [{ Space := "http://www.w3.org/2005/Atom", Content := "",
                        Rel := "hub self", Href := "H" }],
        Entry := none, UpdatePeriod := "", UpdateFrequency := 0 }).1.Topic = "" ∧
    (rss2Feed.Marshal
      { Title := "", Description := "", Updated := "",
        Link := some [{ Space := "http://www.w3.org/2005/Atom", Content := "",
                        Rel := "hub self", Href := "H" }],
        Entry := none, UpdatePeriod := "", UpdateFrequency := 0 }).1.HubURL = "H" ∧
    ("H" : String) ≠ "" := by
  exact ⟨by decide, by decide, by decide, by decide⟩

/-- Concrete instance of the corrected C7: a plain link, a `rel="self"`
link and a `rel="hub"` link land in `WWWURL`, `Topic` and `HubURL`. -/
theorem claim_C7_witness :
    (rss2Feed.Marshal
      { Title := "", Description := "", Updated := "",
        Link := some
          [{ Space := "", Content := "W", Rel := "", Href := "" },
           { Space := "http://www.w3.org/2005/Atom", Content := "", Rel := "self",
             Href := "T" },
           { Space := "http://www.w3.org/2005/Atom", Content := "", Rel := "hub",
             Href := "B" }],
        Entry := none, UpdatePeriod := "", UpdateFrequency := 0 }).1.WWWURL = "W" ∧
    (rss2Feed.Marshal
      { Title := "", Description := "", Updated := "",
        Link := some
          [{ Space := "", Content := "W", Rel := "", Href := "" },
           { Space := "http://www.w3.org/2005/Atom", Content := "", Rel := "self",
             Href := "T" },
           { Space := "http://www.w3.org/2005/Atom", Content := "", Rel := "hub",
             Href := "B" }],
        Entry := none, UpdatePeriod := "", UpdateFrequency := 0 }).1.Topic = "T" ∧
    (rss2Feed.Marshal
      { Title := "", Description := "", Updated := "",
        Link := some
          [{ Space := "", Content := "W", Rel := "", Href := "" },
           { Space := "http://www.w3.org/2005/Atom", Content := "", Rel := "self",
             Href := "T" },
           { Space := "http://www.w3.org/2005/Atom", Content := "", Rel := "hub",
             Href := "B" }],
        Entry := none, UpdatePeriod := "", UpdateFrequency := 0 }).1.HubURL = "B" := by
  obtain ⟨h1, h2, h3⟩ := claim_C7
    { Title := "", Description := "", Updated := "",
      Link := some
        [{ Space := "", Content := "W", Rel := "", Href := "" },
         { Space := "http://www.w3.org/2005/Atom", Content := "", Rel := "self",
           Href := "T" },
         { Space := "http://www.w3.org/2005/Atom", Content := "", Rel := "hub",
           Href := "B" }],
      Entry := none, UpdatePeriod := "", UpdateFrequency := 0 }
    [{ Space := "", Content := "W", Rel := "", Href := "" },
     { Space := "http://www.w3.org/2005/Atom", Content := "", Rel := "self", Href := "T" },
     { Space := "http://www.w3.org/2005/Atom", Content := "", Rel := "hub", Href := "B" }]
    rfl
  refine ⟨?_, ?_, ?_⟩
  · rw [h1]; decide
  · rw [h2]; decide
  · rw [h3]; decide

/-! ## Claim C2 -/

/-- Scanning a list sorted by descending code length, the first entry
whose code occurs in the string has a code at least as long as that of
any entry whose code occurs: a longer contained code is never shadowed by
a shorter one. -/
theorem find_longest_code (s : String) :
    ∀ tzs : List timezone,
      List.Pairwise (fun a b => b.Code.length ≤ a.Code.length) tzs →
      ∀ c ∈ tzs, strContains s c.Code = true →
        ∃ t, tzs.find? (fun tz => strContains s tz.Code) = some t ∧
          c.Code.length ≤ t.Code.length := by
  intro tzs
  induction tzs with
  | nil => intro _ c hc; cases hc
  | cons t ts ih =>
    intro hsort c hc hcont
    rcases List.pairwise_cons.mp hsort with ⟨hhead, htail⟩
    by_cases hp : strContains s t.Code = true
    · refine ⟨t, List.find?_cons_of_pos _ hp, ?_⟩
      rcases List.mem_cons.mp hc with rfl | h
      · exact le_refl _
      · exact hhead c h
    · rcases List.mem_cons.mp hc with rfl | h
      · exact absurd hcont hp
      · obtain ⟨t', hfind, hlen⟩ := ih htail c h hcont
        refine ⟨t', ?_, hlen⟩
        rw [List.find?_cons_of_neg _ (by simpa using hp)]
        exact hfind

/-- Claim C2: the timezone table is sorted by descending code length at
initialization; the substitution scan takes the first contained code in
that order, so a contained code is never preempted by a strictly shorter
one; and concretely `"Mon, 2 Jan 2006 15:04:05 EEST"` gets the 4-letter
code's `+0300` offset substituted (not `EST`'s `-0500`), with only that
first textual match substituted before one retry of the layout list,
which then succeeds at offset +180 minutes. -/
theorem claim_C2 :
    List.Pairwise (fun a b => b.Code.length ≤ a.Code.length) timezones ∧
    (∀ (tzs : List timezone) (s : String),
      List.Pairwise (fun a b => b.Code.length ≤ a.Code.length) tzs →
      ∀ c ∈ tzs, strContains s c.Code = true →
        ∃ t, tzs.find? (fun tz => strContains s tz.Code) = some t ∧
          c.Code.length ≤ t.Code.length) ∧
    parseRSS2Time "Mon, 2 Jan 2006 15:04:05 EEST"
      = ({ year := 2006, month := 1, day := 2, hour := 15, minute := 4, second := 5,
           offset := 180 }, none) :=
  ⟨by decide, fun tzs s hsort => find_longest_code s tzs hsort, by decide⟩

/-- Concrete instance of C2: on the EEST input, the scan of the sorted
table finds a code no shorter than `"EEST"`. -/
theorem claim_C2_witness :
    ∃ t, timezones.find? (fun tz => strContains "Mon, 2 Jan 2006 15:04:05 EEST" tz.Code)
        = some t ∧ ("EEST" : String).length ≤ t.Code.length :=
  claim_C2.2.1 timezones "Mon, 2 Jan 2006 15:04:05 EEST" (by decide)
    ⟨"EEST", "+0300"⟩ (by decide) (by decide)

/-! ## Claim C5 -/

/-- Shape of the normalizer's error message: when an error is reported,
its message carries the input as it stands after the (possible) single
timezone substitution. -/
theorem parseRSS2Time_msg_shape (s : String) :
    (parseRSS2Time s).2 = none ∨
    (timezones.find? (fun tz => strContains s tz.Code) = none ∧
      (parseRSS2Time s).2 = some ("Unrecognized time format: " ++ s)) ∨
    (∃ tz, timezones.find? (fun tz => strContains s tz.Code) = some tz ∧
      (parseRSS2Time s).2
        = some ("Unrecognized time format: " ++ strReplaceFirst s tz.Code tz.Offset)) := by
  by_cases hs : s = ""
  · left; simp [hs, parseRSS2Time]
  · rw [parseRSS2Time_eq s hs]
    split
    · left; rfl
    · split
      · left; rfl
      · split
        · rename_i tz heq
          split
          · left; rfl
          · right; right; exact ⟨tz, heq, rfl⟩
        · rename_i heq
          right; left; exact ⟨heq, rfl⟩

/-- Claim C5, corrected: when every parse attempt fails, `parseRSS2Time`
returns the zero timestamp and an error whose message carries the input
string as it stands after the single timezone-code substitution — the
original input when no table code occurred in it, otherwise the input
with the first occurrence of the first matching code replaced by its
offset. -/
theorem claim_C5 (s msg : String) (h : (parseRSS2Time s).2 = some msg) :
    (parseRSS2Time s).1 = zeroDateTime ∧
    ((timezones.find? (fun tz => strContains s tz.Code) = none ∧
        msg = "Unrecognized time format: " ++ s) ∨
     (∃ tz, timezones.find? (fun tz => strContains s tz.Code) = some tz ∧
        msg = "Unrecognized time format: " ++ strReplaceFirst s tz.Code tz.Offset)) := by
  refine ⟨parseRSS2Time_error_zero s h, ?_⟩
  rcases parseRSS2Time_msg_shape s with h1 | ⟨h1, h2⟩ | ⟨tz, h1, h2⟩
  · rw [h1] at h; cases h
  · left
    refine ⟨h1, ?_⟩
    have := h2.symm.trans h
    exact (Option.some.injEq _ _ ▸ this).symm
  · right
    refine ⟨tz, h1, ?_⟩
    have := h2.symm.trans h
    exact (Option.some.injEq _ _ ▸ this).symm

/-- Counterexample to claim C5 as stated: `"foo EST"` fails every
attempt, and the reported message carries the substituted string
`"foo -0500"`, not the original input. -/
theorem claim_C5_counterexample :
    parseRSS2Time "foo EST" = (zeroDateTime, some "Unrecognized time format: foo -0500") ∧
    ("Unrecognized time format: foo -0500" : String)
      ≠ "Unrecognized time format: foo EST" :=
  ⟨by decide, by decide⟩

/-- Concrete instance of the corrected C5 at `"foo EST"`. -/
theorem claim_C5_witness :
    (parseRSS2Time "foo EST").1 = zeroDateTime ∧
    ((timezones.find? (fun tz => strContains "foo EST" tz.Code) = none ∧
        ("Unrecognized time format: foo -0500" : String)
          = "Unrecognized time format: " ++ "foo EST") ∨
     (∃ tz, timezones.find? (fun tz => strContains "foo EST" tz.Code) = some tz ∧
        ("Unrecognized time format: foo -0500" : String)
          = "Unrecognized time format: "
            ++ strReplaceFirst "foo EST" tz.Code tz.Offset)) :=
  claim_C5 "foo EST" "Unrecognized time format: foo -0500" (by decide)

/-! ## Claim C1 -/

/-- Claim C1, corrected: for a feed whose channel timestamp is absent or
parses cleanly and whose items contain at least one entry with an
unparseable `pubDate` and at least one well-formed entry,
`rss2Feed.Marshal` returns a feed whose `Entries` holds the marshaled
entry of every item in document order (failed ones included, with the
zero timestamp, rather than only the well-formed ones), together with a
non-nil error, and the returned error is the first entry-level error in
document order. -/
theorem claim_C1 (f : rss2Feed) (items : List rss2Entry) (h : f.Entry = some items)
    (hupd : f.Updated = "" ∨ (parseRSS2Time f.Updated).2 = none)
    (hbad : ∃ it ∈ items, (rss2Entry.Marshal it).2 ≠ none)
    (_hgood : ∃ it ∈ items, (rss2Entry.Marshal it).2 = none) :
    (rss2Feed.Marshal f).1.Entries = some (items.map fun it => (rss2Entry.Marshal it).1) ∧
    (rss2Feed.Marshal f).2 = firstEntryError items ∧
    (rss2Feed.Marshal f).2 ≠ none := by
  refine ⟨Marshal_entries h, Marshal_err h hupd, ?_⟩
  rw [Marshal_err h hupd]
  obtain ⟨it, hmem, hne⟩ := hbad
  intro hnone
  unfold firstEntryError at hnone
  rw [List.findSome?_eq_none_iff] at hnone
  exact hne (hnone it hmem)

/-- Counterexample to claim C1 as stated: a feed with one malformed and
one well-formed item marshals into two entries, not exactly the
well-formed ones; and a feed whose channel `lastBuildDate` also fails
carries the channel-level error, not the first entry-level one. -/
theorem claim_C1_counterexample :
    ((rss2Feed.Marshal
      { Title := "", Description := "", Updated := "", Link := none,
        Entry := some
          [{ Id := "1", Published := "garbage", EntryTitle := "bad", Link := "",
             Author := "", EncodedContent := "", Content := "", Enclosures := none },
           { Id := "2", Published := "Mon, 02 Jan 2006 15:04:05 -0700",
             EntryTitle := "good", Link := "", Author := "", EncodedContent := "",
             Content := "", Enclosures := none }],
        UpdatePeriod := "", UpdateFrequency := 0 }).1.Entries.getD []).length = 2 ∧
    (rss2Feed.Marshal
      { Title := "", Description := "", Updated := "", Link := none,
        Entry := some
          [{ Id := "1", Published := "garbage", EntryTitle := "bad", Link := "",
             Author := "", EncodedContent := "", Content := "", Enclosures := none },
           { Id := "2", Published := "Mon, 02 Jan 2006 15:04:05 -0700",
             EntryTitle := "good", Link := "", Author := "", EncodedContent := "",
             Content := "", Enclosures := none }],
        UpdatePeriod := "", UpdateFrequency := 0 }).2
      = some "Unrecognized time format: garbage" ∧
    (rss2Feed.Marshal
      { Title := "", Description := "", Updated := "nonsense", Link := none,
        Entry := some
          [{ Id := "1", Published := "garbage", EntryTitle := "bad", Link := "",
             Author := "", EncodedContent := "", Content := "", Enclosures := none },
           { Id := "2", Published := "Mon, 02 Jan 2006 15:04:05 -0700",
             EntryTitle := "good", Link := "", Author := "", EncodedContent := "",
             Content := "", Enclosures := none }],
        UpdatePeriod := "", UpdateFrequency := 0 }).2
      = some "Unrecognized time format: nonsense" ∧
    firstEntryError
        [{ Id := "1", Published := "garbage", EntryTitle := "bad", Link := "",
           Author := "", EncodedContent := "", Content := "", Enclosures := none },
         { Id := "2", Published := "Mon, 02 Jan 2006 15:04:05 -0700",
           EntryTitle := "good", Link := "", Author := "", EncodedContent := "",
           Content := "", Enclosures := none }]
      = some "Unrecognized time format: garbage" ∧
    ("Unrecognized time format: nonsense" : String)
      ≠ "Unrecognized time format: garbage" :=
  ⟨by decide, by decide, by decide, by decide, by decide⟩

/-- Concrete instance of the corrected C1 on the two-item feed. -/
theorem claim_C1_witness :
    (rss2Feed.Marshal
      { Title := "", Description := "", Updated := "", Link := none,
        Entry := some
          [{ Id := "1", Published := "garbage", EntryTitle := "bad", Link := "",
             Author := "", EncodedContent := "", Content := "", Enclosures := none },
           { Id := "2", Published := "Mon, 02 Jan 2006 15:04:05 -0700",
             EntryTitle := "good", Link := "", Author := "", EncodedContent := "",
             Content := "", Enclosures := none }],
        UpdatePeriod := "", UpdateFrequency := 0 }).1.Entries
      = some
          ([{ Id := "1", Published := "garbage", EntryTitle := "bad", Link := "",
              Author := "", EncodedContent := "", Content := "", Enclosures := none },
            { Id := "2", Published := "Mon, 02 Jan 2006 15:04:05 -0700",
              EntryTitle := "good", Link := "", Author := "", EncodedContent := "",
              Content := "", Enclosures := none }].map
            fun it => (rss2Entry.Marshal it).1) ∧
    (rss2Feed.Marshal
      { Title := "", Description := "", Updated := "", Link := none,
        Entry := some
          [{ Id := "1", Published := "garbage", EntryTitle := "bad", Link := "",
             Author := "", EncodedContent := "", Content := "", Enclosures := none },
           { Id := "2", Published := "Mon, 02 Jan 2006 15:04:05 -0700",
             EntryTitle := "good", Link := "", Author := "", EncodedContent := "",
             Content := "", Enclosures := none }],
        UpdatePeriod := "", UpdateFrequency := 0 }).2
      = firstEntryError
          [{ Id := "1", Published := "garbage", EntryTitle := "bad", Link := "",
             Author := "", EncodedContent := "", Content := "", Enclosures := none },
           { Id := "2", Published := "Mon, 02 Jan 2006 15:04:05 -0700",
             EntryTitle := "good", Link := "", Author := "", EncodedContent := "",
             Content := "", Enclosures := none }] ∧
    (rss2Feed.Marshal
      { Title := "", Description := "", Updated := "", Link := none,
        Entry := some
          [{ Id := "1", Published := "garbage", EntryTitle := "bad", Link := "",
             Author := "", EncodedContent := "", Content := "", Enclosures := none },
           { Id := "2", Published := "Mon, 02 Jan 2006 15:04:05 -0700",
             EntryTitle := "good", Link := "", Author := "", EncodedContent := "",
             Content := "", Enclosures := none }],
        UpdatePeriod := "", UpdateFrequency := 0 }).2 ≠ none :=
  claim_C1
    { Title := "", Description := "", Updated := "", Link := none,
      Entry := some
        [{ Id := "1", Published := "garbage", EntryTitle := "bad", Link := "",
           Author := "", EncodedContent := "", Content := "", Enclosures := none },
         { Id := "2", Published := "Mon, 02 Jan 2006 15:04:05 -0700",
           EntryTitle := "good", Link := "", Author := "", EncodedContent := "",
           Content := "", Enclosures := none }],
      UpdatePeriod := "", UpdateFrequency := 0 }
    [{ Id := "1", Published := "garbage", EntryTitle := "bad", Link := "",
       Author := "", EncodedContent := "", Content := "", Enclosures := none },
     { Id := "2", Published := "Mon, 02 Jan 2006 15:04:05 -0700",
       EntryTitle := "good", Link := "", Author := "", EncodedContent := "",
       Content := "", Enclosures := none }]
    rfl (Or.inl rfl) (by decide) (by decide)

/-! ## Claim C8 -/

/-- Claim C8: for the empty date/time string, `parseRSS2Time` returns the
zero timestamp and no error, so absence of a date is not reported as a
parse failure. -/
theorem claim_C8 : parseRSS2Time "" = (zeroDateTime, none) := by
  simp [parseRSS2Time]

/-! ## Claim C4 -/

/-- Claim C4: for every RSS2 item, the canonical `Entry.Content` equals
the namespaced encoded-content element's value whenever that value is
non-empty, and equals the plain description element's value otherwise; in
particular, when both are populated, `Entry.Content` equals the
encoded-content value. -/
theorem claim_C4 (e : rss2Entry) :
    ∃ ent, (rss2Entry.Marshal e).1 = some ent ∧
      (e.EncodedContent ≠ "" → ent.Content = e.EncodedContent) ∧
      (e.EncodedContent = "" → ent.Content = e.Content) := by
  refine ⟨_, rfl, ?_, ?_⟩ <;> intro h <;> simp [rss2Entry.Marshal, h]

/-- Concrete instance of C4: both content fields populated, the encoded
one wins. -/
theorem claim_C4_witness :
    ∃ ent,
      (rss2Entry.Marshal
        { Id := "id1", Published := "", EntryTitle := "t", Link := "l", Author := "a",
          EncodedContent := "<p>rich</p>", Content := "plain", Enclosures := none }).1
        = some ent ∧ ent.Content = "<p>rich</p>" := by
  obtain ⟨ent, h1, h2, _⟩ := claim_C4
    { Id := "id1", Published := "", EntryTitle := "t", Link := "l", Author := "a",
      EncodedContent := "<p>rich</p>", Content := "plain", Enclosures := none }
  exact ⟨ent, h1, h2 (by decide)⟩

/-! ## Claim C10 -/

/-- Claim C10: a channel with no item elements (a nil item slice, which
is what the XML decoder produces when no `<item>` occurs) leaves
`Feed.Entries` nil, whereas every returned entry has a non-nil `Media`
slice whose length is the number of enclosure elements of its item. -/
theorem claim_C10 :
    (∀ f : rss2Feed, f.Entry = none → (rss2Feed.Marshal f).1.Entries = none) ∧
    (∀ (e : rss2Entry) (ent : Entry), (rss2Entry.Marshal e).1 = some ent →
      ∃ ms, ent.Media = some ms ∧ ms.length = (e.Enclosures.getD []).length) := by
  constructor
  · intro f h
    exact Marshal_entries_nil h
  · intro e ent h
    have : ent =
        { GUID := e.Id, Author := e.Author, Title := e.EntryTitle,
          Content := if e.EncodedContent = "" then e.Content else e.EncodedContent,
          Published := (if e.Published ≠ "" then parseRSS2Time e.Published
            else (zeroDateTime, none)).1,
          WWWURL := e.Link,
          Media := some ((e.Enclosures.getD []).map fun enclosure =>
            { URL := enclosure.URL, «Type» := enclosure.«Type» }) } := by
      have h' := h
      unfold rss2Entry.Marshal at h'
      simp only [Option.some.injEq] at h'
      exact h'.symm
    subst this
    exact ⟨_, rfl, by simp⟩

/-- Concrete instance of C10: an item-less feed gets nil `Entries`; an
entry with two enclosures gets a `Media` slice of length two. -/
theorem claim_C10_witness :
    (rss2Feed.Marshal
      { Title := "t", Description := "d", Updated := "", Link := none, Entry := none,
        UpdatePeriod := "", UpdateFrequency := 0 }).1.Entries = none ∧
    ∀ ent,
      (rss2Entry.Marshal
        { Id := "i", Published := "", EntryTitle := "t", Link := "l", Author := "a",
          EncodedContent := "", Content := "c",
          Enclosures := some [⟨"u1", 10, "audio/mpeg"⟩, ⟨"u2", 20, "video/mp4"⟩] }).1
        = some ent →
      ∃ ms, ent.Media = some ms ∧ ms.length = 2 := by
  constructor
  · exact claim_C10.1 _ rfl
  · intro ent h
    obtain ⟨ms, h1, h2⟩ := claim_C10.2
      { Id := "i", Published := "", EntryTitle := "t", Link := "l", Author := "a",
        EncodedContent := "", Content := "c",
        Enclosures := some [⟨"u1", 10, "audio/mpeg"⟩, ⟨"u2", 20, "video/mp4"⟩] }
      ent h
    exact ⟨ms, h1, by rw [h2]; rfl⟩

/-! ## Claim C9 -/

/-- Claim C9: `rss2Entry.Marshal` always returns a non-nil entry, even
alongside a non-nil error; an item whose `pubDate` fails parsing yields
an entry with the zero `Published` timestamp and all other fields
populated; and `rss2Feed.Marshal` stores the marshaled entry of every
item at the item's document-order position rather than dropping it. -/
theorem claim_C9 :
    (∀ e : rss2Entry, ∃ ent, (rss2Entry.Marshal e).1 = some ent) ∧
    (∀ e : rss2Entry, e.Published ≠ "" → (parseRSS2Time e.Published).2 ≠ none →
      ∀ ent, (rss2Entry.Marshal e).1 = some ent →
        ent.Published = zeroDateTime ∧ ent.GUID = e.Id ∧ ent.Author = e.Author ∧
        ent.Title = e.EntryTitle ∧ ent.WWWURL = e.Link ∧
        ent.Content = (if e.EncodedContent = "" then e.Content else e.EncodedContent) ∧
        ent.Media = some ((e.Enclosures.getD []).map fun enclosure =>
          { URL := enclosure.URL, «Type» := enclosure.«Type» })) ∧
    (∀ (f : rss2Feed) (items : List rss2Entry), f.Entry = some items →
      (rss2Feed.Marshal f).1.Entries
        = some (items.map fun it => (rss2Entry.Marshal it).1)) := by
  refine ⟨fun e => ⟨_, rfl⟩, ?_, fun f items h => Marshal_entries h⟩
  intro e hne herr ent h
  obtain ⟨msg, hmsg⟩ : ∃ msg, (parseRSS2Time e.Published).2 = some msg := by
    cases hm : (parseRSS2Time e.Published).2 with
    | some m => exact ⟨m, rfl⟩
    | none => exact absurd hm herr
  have hzero := parseRSS2Time_error_zero e.Published hmsg
  have : ent =
      { GUID := e.Id, Author := e.Author, Title := e.EntryTitle,
        Content := if e.EncodedContent = "" then e.Content else e.EncodedContent,
        Published := (if e.Published ≠ "" then parseRSS2Time e.Published
          else (zeroDateTime, none)).1,
        WWWURL := e.Link,
        Media := some ((e.Enclosures.getD []).map fun enclosure =>
          { URL := enclosure.URL, «Type» := enclosure.«Type» }) } := by
    have h' := h
    unfold rss2Entry.Marshal at h'
    simp only [Option.some.injEq] at h'
    exact h'.symm
  subst this
  refine ⟨?_, rfl, rfl, rfl, rfl, rfl, rfl⟩
  simp [hne, hzero]

/-- Concrete instance of C9: an item with an unparseable `pubDate` is
still marshaled (non-nil), with the zero timestamp and its other fields
intact, and a two-item feed stores both marshaled entries in order. -/
theorem claim_C9_witness :
    (∃ ent,
      (rss2Entry.Marshal
        { Id := "i", Published := "garbage", EntryTitle := "t", Link := "l", Author := "a",
          EncodedContent := "", Content := "c", Enclosures := none }).1 = some ent) ∧
    (∀ ent,
      (rss2Entry.Marshal
        { Id := "i", Published := "garbage", EntryTitle := "t", Link := "l", Author := "a",
          EncodedContent := "", Content := "c", Enclosures := none }).1 = some ent →
        ent.Published = zeroDateTime ∧ ent.GUID = "i" ∧ ent.Author = "a" ∧
        ent.Title = "t" ∧ ent.WWWURL = "l" ∧ ent.Content = "c" ∧ ent.Media = some []) := by
  refine ⟨claim_C9.1 _, ?_⟩
  intro ent h
  have := claim_C9.2.1
    { Id := "i", Published := "garbage", EntryTitle := "t", Link := "l", Author := "a",
      EncodedContent := "", Content := "c", Enclosures := none }
    (by decide) (by decide) ent h
  simpa using this

/-! ## Claim C6: layout round trips

The remaining lemmas establish that normalizing the string rendered
under any supported layout recovers the value.  They follow the chunk
structure: per-chunk parse/render facts, per-segment runs, failure of
every earlier layout on each rendered shape (or success with the same
value where a rendered string is shared between layouts), and the
assembly through `parseTime` and `parseRSS2Time`. -/

theorem digitCh_isDigit : ∀ n, n < 10 → (digitCh n).isDigit = true := by decide

theorem digitVal_digitCh : ∀ n, n < 10 → digitVal (digitCh n) = n := by decide

theorem getNum2Fixed_pad2 (n : Nat) (hn : n < 100) (rest : List Char) :
    getNum2Fixed (pad2 n ++ rest) = some (n, rest) := by
  have h1 : n / 10 < 10 := by omega
  have h2 : n % 10 < 10 := by omega
  simp only [pad2, List.cons_append, List.nil_append, getNum2Fixed,
    digitCh_isDigit _ h1, digitCh_isDigit _ h2, Bool.and_self, if_true,
    digitVal_digitCh _ h1, digitVal_digitCh _ h2]
  congr 2
  omega

theorem getNum2_pad2 (n : Nat) (hn : n < 100) (rest : List Char) :
    getNum2 (pad2 n ++ rest) = some (n, rest) := by
  have h1 : n / 10 < 10 := by omega
  have h2 : n % 10 < 10 := by omega
  simp only [pad2, List.cons_append, List.nil_append, getNum2,
    digitCh_isDigit _ h1, digitCh_isDigit _ h2, if_true,
    digitVal_digitCh _ h1, digitVal_digitCh _ h2]
  congr 2
  omega

theorem getNum2_noPad2 (n : Nat) (hn : n < 100) (rest : List Char)
    (hr : noDigitHead rest = true) : getNum2 (noPad2 n ++ rest) = some (n, rest) := by
  by_cases h : n < 10
  · simp only [noPad2, if_pos h, List.cons_append, List.nil_append]
    cases rest with
    | nil => simp [getNum2, digitCh_isDigit _ h, digitVal_digitCh _ h]
    | cons c t =>
      have hc : c.isDigit = false := by simpa [noDigitHead] using hr
      simp [getNum2, digitCh_isDigit _ h, digitVal_digitCh _ h, hc]
  · rw [noPad2, if_neg h]
    exact getNum2_pad2 n hn rest

theorem getNum4_pad4 (n : Nat) (hn : n < 10000) (rest : List Char) :
    getNum4 (pad4 n ++ rest) = some (n, rest) := by
  have h1 : n / 1000 < 10 := by omega
  have h2 : n / 100 % 10 < 10 := by omega
  have h3 : n / 10 % 10 < 10 := by omega
  have h4 : n % 10 < 10 := by omega
  simp only [pad4, List.cons_append, List.nil_append, getNum4,
    digitCh_isDigit _ h1, digitCh_isDigit _ h2, digitCh_isDigit _ h3, digitCh_isDigit _ h4,
    Bool.and_self, if_true,
    digitVal_digitCh _ h1, digitVal_digitCh _ h2, digitVal_digitCh _ h3,
    digitVal_digitCh _ h4]
  congr 2
  omega

theorem getNum4_second_nondigit (c1 c : Char) (hc : c.isDigit = false) (rest : List Char) :
    getNum4 (c1 :: c :: rest) = none := by
  cases rest with
  | nil => rfl
  | cons c3 t =>
    cases t with
    | nil => rfl
    | cons c4 t2 => simp [getNum4, hc]

theorem getNum4_third_nondigit (c1 c2 c : Char) (hc : c.isDigit = false) (rest : List Char) :
    getNum4 (c1 :: c2 :: c :: rest) = none := by
  cases rest with
  | nil => rfl
  | cons c4 t => simp [getNum4, hc]

theorem getNum4_on_pad2 (n : Nat) (c : Char) (hc : c.isDigit = false) (rest : List Char) :
    getNum4 (pad2 n ++ c :: rest) = none := by
  simp only [pad2, List.cons_append, List.nil_append]
  exact getNum4_third_nondigit _ _ c hc rest

theorem getNum4_on_noPad2 (n : Nat) (rest : List Char) :
    getNum4 (noPad2 n ++ ' ' :: rest) = none := by
  by_cases h : n < 10
  · rw [noPad2, if_pos h]
    simp only [List.cons_append, List.nil_append]
    exact getNum4_second_nondigit _ ' ' (by decide) rest
  · rw [noPad2, if_neg h]
    exact getNum4_on_pad2 n ' ' (by decide) rest

theorem skipFrac_of_noFrac (l : List Char) (h : noFracHead l = true) : skipFrac l = l := by
  cases l with
  | nil => rfl
  | cons c1 t =>
    cases t with
    | nil => rfl
    | cons c2 t2 =>
      have hc : (c1 == '.' || c1 == ',') = false := by simpa [noFracHead] using h
      simp [skipFrac, hc]

theorem parseLit_render (l rest : List Char) (acc : ParseAcc) :
    parseTok (.lit l) (l ++ rest) acc = some (rest, acc) := by
  have hp : l.isPrefixOf (l ++ rest) = true := by
    rw [List.isPrefixOf_iff_prefix]
    exact List.prefix_append l rest
  simp [parseTok, hp]

theorem parseLit_fail_head (a c : Char) (hne : a ≠ c) (p rest : List Char) (acc : ParseAcc) :
    parseTok (.lit (a :: p)) (c :: rest) acc = none := by
  have : (a :: p).isPrefixOf (c :: rest) = false := by
    simp [List.isPrefixOf, hne]
  simp [parseTok, this]

theorem parseLit_fail_nil (a : Char) (p : List Char) (acc : ParseAcc) :
    parseTok (.lit (a :: p)) [] acc = none := by
  simp [parseTok, List.isPrefixOf]

theorem parseLit2_fail (a b c : Char) (hne : b ≠ c) (p rest : List Char) (acc : ParseAcc) :
    parseTok (.lit (a :: b :: p)) (a :: c :: rest) acc = none := by
  have : (a :: b :: p).isPrefixOf (a :: c :: rest) = false := by
    simp [List.isPrefixOf, hne]
  simp [parseTok, this]

theorem weekdayIdx_lt (v : DateTime) : weekdayIdx v < 7 := by
  unfold weekdayIdx
  rw [show (daysFromCivil v.year v.month v.day + 4).emod 7
      = (daysFromCivil v.year v.month v.day + 4) % 7 from rfl]
  omega

theorem lookupDay_render (k : Nat) (hk : k < 7) (rest : List Char) :
    lookupName shortDayNames 0 ((shortDayName k).data ++ rest) = some (k, rest) := by
  interval_cases k <;> rfl

theorem parseDayName_render (k : Nat) (hk : k < 7) (rest : List Char) (acc : ParseAcc) :
    parseTok .dayName ((shortDayName k).data ++ rest) acc = some (rest, acc) := by
  simp [parseTok, lookupDay_render k hk rest]

theorem lookupDay_fail_digit (k : Nat) (hk : k < 10) (rest : List Char) :
    lookupName shortDayNames 0 (digitCh k :: rest) = none := by
  interval_cases k <;> rfl

theorem parseDayName_fail_digit (k : Nat) (hk : k < 10) (rest : List Char) (acc : ParseAcc) :
    parseTok .dayName (digitCh k :: rest) acc = none := by
  simp [parseTok, lookupDay_fail_digit k hk rest]

theorem parseDayName_fail_pad4 (n : Nat) (hn : n < 10000) (rest : List Char)
    (acc : ParseAcc) : parseTok .dayName (pad4 n ++ rest) acc = none := by
  simp only [pad4, List.cons_append]
  exact parseDayName_fail_digit (n / 1000) (by omega) _ _

theorem parseDayName_fail_noPad2 (n : Nat) (hn : n < 100) (rest : List Char)
    (acc : ParseAcc) : parseTok .dayName (noPad2 n ++ rest) acc = none := by
  by_cases h : n < 10
  · rw [noPad2, if_pos h]
    simp only [List.cons_append, List.nil_append]
    exact parseDayName_fail_digit n (by omega) _ _
  · rw [noPad2, if_neg h]
    simp only [pad2, List.cons_append]
    exact parseDayName_fail_digit (n / 10) (by omega) _ _

theorem lookupMonthS_render (m : Nat) (h1 : 1 ≤ m) (h2 : m ≤ 12) (rest : List Char) :
    lookupName shortMonthNames 0 ((shortMonthName m).data ++ rest) = some (m - 1, rest) := by
  interval_cases m <;> rfl

theorem parseMonthShort_render (m : Nat) (h1 : 1 ≤ m) (h2 : m ≤ 12) (rest : List Char)
    (acc : ParseAcc) :
    parseTok .monthShort ((shortMonthName m).data ++ rest) acc
      = some (rest, { acc with month := m }) := by
  simp only [parseTok, lookupMonthS_render m h1 h2 rest]
  rw [Nat.sub_add_cancel h1]

theorem lookupMonthL_render (m : Nat) (h1 : 1 ≤ m) (h2 : m ≤ 12) (rest : List Char) :
    lookupName longMonthNames 0 ((longMonthName m).data ++ rest) = some (m - 1, rest) := by
  interval_cases m <;> rfl

theorem parseMonthLong_render (m : Nat) (h1 : 1 ≤ m) (h2 : m ≤ 12) (rest : List Char)
    (acc : ParseAcc) :
    parseTok .monthLong ((longMonthName m).data ++ rest) acc
      = some (rest, { acc with month := m }) := by
  simp only [parseTok, lookupMonthL_render m h1 h2 rest]
  rw [Nat.sub_add_cancel h1]

theorem parseDayName_fail_monthLong (m : Nat) (h1 : 1 ≤ m) (h2 : m ≤ 12)
    (rest : List Char) (acc : ParseAcc) :
    parseTok .dayName ((longMonthName m).data ++ rest) acc = none := by
  interval_cases m <;> rfl

theorem getNum4_fail_monthLong (m : Nat) (h1 : 1 ≤ m) (h2 : m ≤ 12) (rest : List Char) :
    getNum4 ((longMonthName m).data ++ rest) = none := by
  interval_cases m <;> first | rfl | (rcases rest with _ | ⟨c4, t⟩ <;> rfl)

theorem getNum2_fail_monthLong (m : Nat) (h1 : 1 ≤ m) (h2 : m ≤ 12) (rest : List Char) :
    getNum2 ((longMonthName m).data ++ rest) = none := by
  interval_cases m <;> rfl

theorem getNum4_fail_dayName (k : Nat) (hk : k < 7) (rest : List Char) :
    getNum4 ((shortDayName k).data ++ rest) = none := by
  interval_cases k <;> (rcases rest with _ | ⟨c4, t⟩ <;> rfl)

theorem getNum2_fail_dayName (k : Nat) (hk : k < 7) (rest : List Char) :
    getNum2 ((shortDayName k).data ++ rest) = none := by
  interval_cases k <;> rfl

theorem parseYear4_render (n : Nat) (hn : n < 10000) (rest : List Char) (acc : ParseAcc) :
    parseTok .year4 (pad4 n ++ rest) acc = some (rest, { acc with year := (n : Int) }) := by
  simp [parseTok, getNum4_pad4 n hn rest]

theorem parseYear4_fail_pad2 (n : Nat) (c : Char) (hc : c.isDigit = false)
    (rest : List Char) (acc : ParseAcc) :
    parseTok .year4 (pad2 n ++ c :: rest) acc = none := by
  simp [parseTok, getNum4_on_pad2 n c hc rest]

theorem parseYear2_render (n : Nat) (hn : n < 100) (rest : List Char) (acc : ParseAcc) :
    parseTok .year2 (pad2 n ++ rest) acc
      = some (rest,
          { acc with year := if 69 ≤ n then (1900 + n : Int) else (2000 + n : Int) }) := by
  simp [parseTok, getNum2Fixed_pad2 n hn rest]

theorem parseDay2_render (d : Nat) (hd : d < 100) (rest : List Char) (acc : ParseAcc) :
    parseTok .day2 (pad2 d ++ rest) acc = some (rest, { acc with day := d }) := by
  simp [parseTok, getNum2Fixed_pad2 d hd rest]

theorem parseDay2_fail_small (d : Nat) (hd : d < 10) (c : Char) (hc : c.isDigit = false)
    (rest : List Char) (acc : ParseAcc) :
    parseTok .day2 (noPad2 d ++ c :: rest) acc = none := by
  rw [noPad2, if_pos hd]
  simp [parseTok, getNum2Fixed, hc]

theorem parseDay1_render (d : Nat) (hd : d < 100) (rest : List Char) (acc : ParseAcc)
    (hr : noDigitHead rest = true) :
    parseTok .day1 (noPad2 d ++ rest) acc = some (rest, { acc with day := d }) := by
  simp [parseTok, getNum2_noPad2 d hd rest hr]

theorem parseMonth2_render (m : Nat) (h1 : 1 ≤ m) (h2 : m ≤ 12) (rest : List Char)
    (acc : ParseAcc) :
    parseTok .month2 (pad2 m ++ rest) acc = some (rest, { acc with month := m }) := by
  simp [parseTok, getNum2Fixed_pad2 m (by omega) rest, h1, h2]

theorem parseHour_render (h : Nat) (hh : h ≤ 23) (rest : List Char) (acc : ParseAcc) :
    parseTok .hourNum (pad2 h ++ rest) acc = some (rest, { acc with hour := h }) := by
  simp [parseTok, getNum2_pad2 h (by omega) rest, hh]

theorem parseMin2_render (m : Nat) (hm : m ≤ 59) (rest : List Char) (acc : ParseAcc) :
    parseTok .min2 (pad2 m ++ rest) acc = some (rest, { acc with minute := m }) := by
  simp [parseTok, getNum2Fixed_pad2 m (by omega) rest, hm]

theorem parseSec2_render (s : Nat) (hs : s ≤ 59) (rest : List Char) (acc : ParseAcc)
    (hf : noFracHead rest = true) :
    parseTok .sec2 (pad2 s ++ rest) acc = some (rest, { acc with second := s }) := by
  simp [parseTok, getNum2Fixed_pad2 s (by omega) rest, hs, skipFrac_of_noFrac rest hf]

theorem parseOffHHMM_render (off : Int) (hoff : off.natAbs ≤ 1439) (rest : List Char)
    (acc : ParseAcc) :
    parseTok .offHHMM (signedOff off ++ rest) acc = some (rest, { acc with offset := off }) := by
  have ha : off.natAbs / 60 < 100 := by omega
  have hb : off.natAbs % 60 < 100 := by omega
  have hplus : signOf '+' = some 1 := rfl
  have hminus : signOf '-' = some (-1) := rfl
  by_cases h : off < 0
  · simp only [signedOff, if_pos h, List.cons_append, List.append_assoc, parseTok, hminus,
      getNum2Fixed_pad2 _ ha, getNum2Fixed_pad2 _ hb]
    have : (-1 : Int) * ((off.natAbs / 60 : Nat) * 60 + (off.natAbs % 60 : Nat)) = off := by
      omega
    rw [this]
  · simp only [signedOff, if_neg h, List.cons_append, List.append_assoc, parseTok, hplus,
      getNum2Fixed_pad2 _ ha, getNum2Fixed_pad2 _ hb]
    have : (1 : Int) * ((off.natAbs / 60 : Nat) * 60 + (off.natAbs % 60 : Nat)) = off := by
      omega
    rw [this]

theorem parseOffColon_render (off : Int) (hoff : off.natAbs ≤ 1439) (rest : List Char)
    (acc : ParseAcc) :
    parseTok .offColon (signedOffColon off ++ rest) acc
      = some (rest, { acc with offset := off }) := by
  have ha : off.natAbs / 60 < 100 := by omega
  have hb : off.natAbs % 60 < 100 := by omega
  have hplus : signOf '+' = some 1 := rfl
  have hminus : signOf '-' = some (-1) := rfl
  by_cases h : off < 0
  · simp only [signedOffColon, if_pos h, List.cons_append, List.append_assoc, parseTok,
      hminus, getNum2Fixed_pad2 _ ha, List.cons_append, getNum2Fixed_pad2 _ hb]
    have : (-1 : Int) * ((off.natAbs / 60 : Nat) * 60 + (off.natAbs % 60 : Nat)) = off := by
      omega
    rw [this]
  · simp only [signedOffColon, if_neg h, List.cons_append, List.append_assoc, parseTok,
      hplus, getNum2Fixed_pad2 _ ha, List.cons_append, getNum2Fixed_pad2 _ hb]
    have : (1 : Int) * ((off.natAbs / 60 : Nat) * 60 + (off.natAbs % 60 : Nat)) = off := by
      omega
    rw [this]

theorem parseOffHHMM_fail_Z (rest : List Char) (acc : ParseAcc) :
    parseTok .offHHMM ('Z' :: rest) acc = none := rfl

theorem parseOffHHMM_fail_nil (acc : ParseAcc) : parseTok .offHHMM [] acc = none := rfl

/-! Sequential-composition lemmas for chunk lists. -/

theorem runToks_nil (s : List Char) (acc : ParseAcc) : runToks [] s acc = some (s, acc) := rfl

theorem runToks_cons_some {t : FmtTok} {ts : List FmtTok} {s : List Char} {acc : ParseAcc}
    {s' : List Char} {acc' : ParseAcc} (h : parseTok t s acc = some (s', acc')) :
    runToks (t :: ts) s acc = runToks ts s' acc' := by
  simp [runToks, h]

theorem runToks_cons_none {t : FmtTok} {ts : List FmtTok} {s : List Char} {acc : ParseAcc}
    (h : parseTok t s acc = none) : runToks (t :: ts) s acc = none := by
  simp [runToks, h]

theorem runToks_append (a b : List FmtTok) (s : List Char) (acc : ParseAcc) :
    runToks (a ++ b) s acc = (runToks a s acc).bind fun p => runToks b p.1 p.2 := by
  induction a generalizing s acc with
  | nil => simp [runToks]
  | cons t ts ih =>
    simp only [List.cons_append, runToks]
    cases h : parseTok t s acc with
    | none => simp
    | some p =>
      obtain ⟨s', acc'⟩ := p
      simp [ih]

theorem runToks_append_some {a b : List FmtTok} {s : List Char} {acc : ParseAcc}
    {s' : List Char} {acc' : ParseAcc} (h : runToks a s acc = some (s', acc')) :
    runToks (a ++ b) s acc = runToks b s' acc' := by
  rw [runToks_append, h]
  rfl

theorem runToks_append_none {a b : List FmtTok} {s : List Char} {acc : ParseAcc}
    (h : runToks a s acc = none) : runToks (a ++ b) s acc = none := by
  rw [runToks_append, h]
  rfl

/-! Literal-chunk wrappers at the concrete separators. -/

theorem parseLitSpace (rest : List Char) (acc : ParseAcc) :
    parseTok (.lit [' ']) (' ' :: rest) acc = some (rest, acc) :=
  parseLit_render [' '] rest acc

theorem parseLitColon (rest : List Char) (acc : ParseAcc) :
    parseTok (.lit [':']) (':' :: rest) acc = some (rest, acc) :=
  parseLit_render [':'] rest acc

theorem parseLitDash (rest : List Char) (acc : ParseAcc) :
    parseTok (.lit ['-']) ('-' :: rest) acc = some (rest, acc) :=
  parseLit_render ['-'] rest acc

theorem parseLitT (rest : List Char) (acc : ParseAcc) :
    parseTok (.lit ['T']) ('T' :: rest) acc = some (rest, acc) :=
  parseLit_render ['T'] rest acc

theorem parseLitCommaSpace (rest : List Char) (acc : ParseAcc) :
    parseTok (.lit [',', ' ']) (',' :: ' ' :: rest) acc = some (rest, acc) :=
  parseLit_render [',', ' '] rest acc

theorem parseLitSpaceZ (rest : List Char) (acc : ParseAcc) :
    parseTok (.lit [' ', 'Z']) (' ' :: 'Z' :: rest) acc = some (rest, acc) :=
  parseLit_render [' ', 'Z'] rest acc

theorem noDigitHead_space (t : List Char) : noDigitHead (' ' :: t) = true := rfl

theorem noPad2_big (n : Nat) (h : ¬n < 10) : noPad2 n = pad2 n := if_neg h

/-! Segment runs on their rendered shapes. -/

theorem run_segWD (k : Nat) (hk : k < 7) (rest : List Char) (acc : ParseAcc) :
    runToks segWD ((shortDayName k).data ++ (',' :: ' ' :: rest)) acc = some (rest, acc) := by
  simp only [segWD]
  rw [runToks_cons_some (parseDayName_render k hk _ acc),
    runToks_cons_some (parseLitCommaSpace _ _)]
  rfl

theorem run_segD2 (d m : Nat) (hd : d < 100) (h1 : 1 ≤ m) (h2 : m ≤ 12)
    (rest : List Char) (acc : ParseAcc) :
    runToks segD2 (pad2 d ++ ' ' :: ((shortMonthName m).data ++ ' ' :: rest)) acc
      = some (rest, { acc with day := d, month := m }) := by
  simp only [segD2]
  rw [runToks_cons_some (parseDay2_render d hd _ _),
    runToks_cons_some (parseLitSpace _ _),
    runToks_cons_some (parseMonthShort_render m h1 h2 _ _),
    runToks_cons_some (parseLitSpace _ _)]
  rfl

theorem run_segD1 (d m : Nat) (hd : d < 100) (h1 : 1 ≤ m) (h2 : m ≤ 12)
    (rest : List Char) (acc : ParseAcc) :
    runToks segD1 (noPad2 d ++ ' ' :: ((shortMonthName m).data ++ ' ' :: rest)) acc
      = some (rest, { acc with day := d, month := m }) := by
  simp only [segD1]
  rw [runToks_cons_some (parseDay1_render d hd _ _ (noDigitHead_space _)),
    runToks_cons_some (parseLitSpace _ _),
    runToks_cons_some (parseMonthShort_render m h1 h2 _ _),
    runToks_cons_some (parseLitSpace _ _)]
  rfl

theorem run_segY4 (y : Nat) (hy : y < 10000) (rest : List Char) (acc : ParseAcc) :
    runToks segY4 (pad4 y ++ ' ' :: rest) acc = some (rest, { acc with year := (y : Int) }) := by
  simp only [segY4]
  rw [runToks_cons_some (parseYear4_render y hy _ _),
    runToks_cons_some (parseLitSpace _ _)]
  rfl

theorem run_segY2 (n : Nat) (hn : n < 100) (rest : List Char) (acc : ParseAcc) :
    runToks segY2 (pad2 n ++ ' ' :: rest) acc
      = some (rest,
          { acc with year := if 69 ≤ n then (1900 + n : Int) else (2000 + n : Int) }) := by
  simp only [segY2]
  rw [runToks_cons_some (parseYear2_render n hn _ _),
    runToks_cons_some (parseLitSpace _ _)]
  rfl

theorem run_segHMS (h mi s : Nat) (hh : h ≤ 23) (hm : mi ≤ 59) (hs : s ≤ 59)
    (rest : List Char) (acc : ParseAcc) (hf : noFracHead rest = true) :
    runToks segHMS (pad2 h ++ ':' :: (pad2 mi ++ ':' :: (pad2 s ++ rest))) acc
      = some (rest, { acc with hour := h, minute := mi, second := s }) := by
  simp only [segHMS]
  rw [runToks_cons_some (parseHour_render h hh _ _),
    runToks_cons_some (parseLitColon _ _),
    runToks_cons_some (parseMin2_render mi hm _ _),
    runToks_cons_some (parseLitColon _ _),
    runToks_cons_some (parseSec2_render s hs rest _ hf)]
  rfl

theorem run_segHM (h mi : Nat) (hh : h ≤ 23) (hm : mi ≤ 59)
    (rest : List Char) (acc : ParseAcc) :
    runToks segHM (pad2 h ++ ':' :: (pad2 mi ++ rest)) acc
      = some (rest, { acc with hour := h, minute := mi }) := by
  simp only [segHM]
  rw [runToks_cons_some (parseHour_render h hh _ _),
    runToks_cons_some (parseLitColon _ _),
    runToks_cons_some (parseMin2_render mi hm _ _)]
  rfl

/-! Segment failures on mismatched rendered shapes. -/

theorem fail_segWD_pad4 (n : Nat) (hn : n < 10000) (rest : List Char) (acc : ParseAcc) :
    runToks segWD (pad4 n ++ rest) acc = none :=
  runToks_cons_none (parseDayName_fail_pad4 n hn rest acc)

theorem fail_segWD_noPad2 (n : Nat) (hn : n < 100) (rest : List Char) (acc : ParseAcc) :
    runToks segWD (noPad2 n ++ rest) acc = none :=
  runToks_cons_none (parseDayName_fail_noPad2 n hn rest acc)

theorem fail_segWD_monthLong (m : Nat) (h1 : 1 ≤ m) (h2 : m ≤ 12) (rest : List Char)
    (acc : ParseAcc) : runToks segWD ((longMonthName m).data ++ rest) acc = none :=
  runToks_cons_none (parseDayName_fail_monthLong m h1 h2 rest acc)

theorem fail_segD2_small (d : Nat) (hd : d < 10) (rest : List Char) (acc : ParseAcc) :
    runToks segD2 (noPad2 d ++ ' ' :: rest) acc = none :=
  runToks_cons_none (parseDay2_fail_small d hd ' ' (by decide) rest acc)

theorem fail_segY4_pad2 (n : Nat) (rest : List Char) (acc : ParseAcc) :
    runToks segY4 (pad2 n ++ ' ' :: rest) acc = none :=
  runToks_cons_none (parseYear4_fail_pad2 n ' ' (by decide) rest acc)

theorem parseYear4_fail_dayName (k : Nat) (hk : k < 7) (rest : List Char) (acc : ParseAcc) :
    parseTok .year4 ((shortDayName k).data ++ rest) acc = none := by
  simp [parseTok, getNum4_fail_dayName k hk rest]

theorem parseYear4_fail_noPad2 (n : Nat) (rest : List Char) (acc : ParseAcc) :
    parseTok .year4 (noPad2 n ++ ' ' :: rest) acc = none := by
  simp [parseTok, getNum4_on_noPad2 n rest]

theorem parseYear4_fail_monthLong (m : Nat) (h1 : 1 ≤ m) (h2 : m ≤ 12)
    (rest : List Char) (acc : ParseAcc) :
    parseTok .year4 ((longMonthName m).data ++ rest) acc = none := by
  simp [parseTok, getNum4_fail_monthLong m h1 h2 rest]

theorem parseDay1_fail_dayName (k : Nat) (hk : k < 7) (rest : List Char) (acc : ParseAcc) :
    parseTok .day1 ((shortDayName k).data ++ rest) acc = none := by
  simp [parseTok, getNum2_fail_dayName k hk rest]

theorem parseDay1_fail_monthLong (m : Nat) (h1 : 1 ≤ m) (h2 : m ≤ 12)
    (rest : List Char) (acc : ParseAcc) :
    parseTok .day1 ((longMonthName m).data ++ rest) acc = none := by
  simp [parseTok, getNum2_fail_monthLong m h1 h2 rest]

theorem fail_segHMS_noSec (h mi : Nat) (hh : h ≤ 23) (hm : mi ≤ 59)
    (rest : List Char) (acc : ParseAcc) :
    runToks segHMS (pad2 h ++ ':' :: (pad2 mi ++ ' ' :: rest)) acc = none := by
  simp only [segHMS]
  rw [runToks_cons_some (parseHour_render h hh _ _),
    runToks_cons_some (parseLitColon _ _),
    runToks_cons_some (parseMin2_render mi hm _ _)]
  exact runToks_cons_none (parseLit_fail_head ':' ' ' (by decide) [] _ _)

/-! Rendered shapes of the ten layouts. -/

theorem renderFmt0 (v : DateTime) :
    renderToks fmt0 v
      = (shortDayName (weekdayIdx v)).data ++ (',' :: ' ' :: (pad2 v.day ++ ' '
        :: ((shortMonthName v.month).data ++ ' ' :: (pad4 v.year.toNat ++ ' '
        :: (pad2 v.hour ++ ':' :: (pad2 v.minute ++ ':' :: (pad2 v.second ++ ' '
        :: signedOff v.offset))))))) := by
  simp [fmt0, segWD, segD2, segY4, segHMS, renderToks, renderTok, List.cons_append,
    List.nil_append, List.append_assoc, List.append_nil]

theorem renderFmt1 (v : DateTime) :
    renderToks fmt1 v
      = pad4 v.year.toNat ++ '-' :: (pad2 v.month ++ '-' :: (pad2 v.day ++ 'T'
        :: (pad2 v.hour ++ ':' :: (pad2 v.minute ++ ':' :: (pad2 v.second
        ++ signedOffColon v.offset))))) := by
  simp [fmt1, segHMS, renderToks, renderTok, List.cons_append,
    List.nil_append, List.append_assoc, List.append_nil]

theorem renderFmt2 (v : DateTime) :
    renderToks fmt2 v
      = (shortDayName (weekdayIdx v)).data ++ (',' :: ' ' :: (pad2 v.day ++ ' '
        :: ((shortMonthName v.month).data ++ ' ' :: (pad4 v.year.toNat ++ ' '
        :: (pad2 v.hour ++ ':' :: (pad2 v.minute ++ ':' :: (pad2 v.second
        ++ [' ', 'Z']))))))) := by
  simp [fmt2, segWD, segD2, segY4, segHMS, renderToks, renderTok, List.cons_append,
    List.nil_append, List.append_assoc, List.append_nil]

theorem renderFmt3 (v : DateTime) :
    renderToks fmt3 v
      = (shortDayName (weekdayIdx v)).data ++ (',' :: ' ' :: (pad2 v.day ++ ' '
        :: ((shortMonthName v.month).data ++ ' ' :: (pad4 v.year.toNat ++ ' '
        :: (pad2 v.hour ++ ':' :: (pad2 v.minute ++ ':' :: pad2 v.second)))))) := by
  simp [fmt3, segWD, segD2, segY4, segHMS, renderToks, renderTok, List.cons_append,
    List.nil_append, List.append_assoc, List.append_nil]

theorem renderFmt4 (v : DateTime) :
    renderToks fmt4 v
      = (shortDayName (weekdayIdx v)).data ++ (',' :: ' ' :: (noPad2 v.day ++ ' '
        :: ((shortMonthName v.month).data ++ ' ' :: (pad4 v.year.toNat ++ ' '
        :: (pad2 v.hour ++ ':' :: (pad2 v.minute ++ ':' :: (pad2 v.second ++ ' '
        :: signedOff v.offset))))))) := by
  simp [fmt4, segWD, segD1, segY4, segHMS, renderToks, renderTok, List.cons_append,
    List.nil_append, List.append_assoc, List.append_nil]

theorem renderFmt5 (v : DateTime) :
    renderToks fmt5 v
      = (shortDayName (weekdayIdx v)).data ++ (',' :: ' ' :: (noPad2 v.day ++ ' '
        :: ((shortMonthName v.month).data ++ ' ' :: (pad4 v.year.toNat ++ ' '
        :: (pad2 v.hour ++ ':' :: (pad2 v.minute ++ ':' :: pad2 v.second)))))) := by
  simp [fmt5, segWD, segD1, segY4, segHMS, renderToks, renderTok, List.cons_append,
    List.nil_append, List.append_assoc, List.append_nil]

theorem renderFmt6 (v : DateTime) :
    renderToks fmt6 v
      = noPad2 v.day ++ ' ' :: ((shortMonthName v.month).data ++ ' '
        :: (pad4 v.year.toNat ++ ' ' :: (pad2 v.hour ++ ':' :: (pad2 v.minute ++ ':'
        :: (pad2 v.second ++ ' ' :: signedOff v.offset))))) := by
  simp [fmt6, segD1, segY4, segHMS, renderToks, renderTok, List.cons_append,
    List.nil_append, List.append_assoc, List.append_nil]

theorem renderFmt7 (v : DateTime) :
    renderToks fmt7 v
      = (shortDayName (weekdayIdx v)).data ++ (',' :: ' ' :: (noPad2 v.day ++ ' '
        :: ((shortMonthName v.month).data ++ ' ' :: (pad4 v.year.toNat ++ ' '
        :: (pad2 v.hour ++ ':' :: (pad2 v.minute ++ ' ' :: signedOff v.offset)))))) := by
  simp [fmt7, segWD, segD1, segY4, segHM, renderToks, renderTok, List.cons_append,
    List.nil_append, List.append_assoc, List.append_nil]

theorem renderFmt8 (v : DateTime) :
    renderToks fmt8 v
      = (shortDayName (weekdayIdx v)).data ++ (',' :: ' ' :: (noPad2 v.day ++ ' '
        :: ((shortMonthName v.month).data ++ ' ' :: (pad2 (v.year.emod 100).toNat ++ ' '
        :: (pad2 v.hour ++ ':' :: (pad2 v.minute ++ ':' :: (pad2 v.second ++ ' '
        :: signedOff v.offset))))))) := by
  simp [fmt8, segWD, segD1, segY2, segHMS, renderToks, renderTok, List.cons_append,
    List.nil_append, List.append_assoc, List.append_nil]

theorem renderFmt9 (v : DateTime) :
    renderToks fmt9 v
      = (longMonthName v.month).data ++ ' ' :: (noPad2 v.day ++ ',' :: ' '
        :: pad4 v.year.toNat) := by
  simp [fmt9, renderToks, renderTok, List.cons_append,
    List.nil_append, List.append_assoc, List.append_nil]

/-- With a two-digit day, layouts 4 and 0 render identically. -/
theorem renderEq40 (v : DateTime) (h : ¬v.day < 10) :
    renderToks fmt4 v = renderToks fmt0 v := by
  rw [renderFmt4, renderFmt0, noPad2_big _ h]

/-- With a two-digit day, layouts 5 and 3 render identically. -/
theorem renderEq53 (v : DateTime) (h : ¬v.day < 10) :
    renderToks fmt5 v = renderToks fmt3 v := by
  rw [renderFmt5, renderFmt3, noPad2_big _ h]

/-! `goParse` on the outcome of the chunk run. -/

theorem goFormat_data (toks : List FmtTok) (v : DateTime) :
    (goFormat toks v).data = renderToks toks v := rfl

theorem goParse_none_of_runToks {toks : List FmtTok} {s : String}
    (h : runToks toks s.data {} = none) : goParse toks s = none := by
  simp [goParse, h]

theorem goParse_extra {toks : List FmtTok} {s : String} {c : Char} {t : List Char}
    {acc : ParseAcc} (h : runToks toks s.data {} = some (c :: t, acc)) :
    goParse toks s = none := by
  simp [goParse, h]

theorem goParse_some {toks : List FmtTok} {s : String} {acc : ParseAcc}
    (h : runToks toks s.data {} = some ([], acc))
    (hday : 1 ≤ acc.day ∧ acc.day ≤ daysInMonth acc.month acc.year) :
    goParse toks s
      = some ⟨acc.year, acc.month, acc.day, acc.hour, acc.minute, acc.second, acc.offset⟩ := by
  simp [goParse, h, hday]

/-! End-of-input wrappers and round trips per layout. -/

theorem daysInMonth_le (m : Nat) (y : Int) : daysInMonth m y ≤ 31 := by
  unfold daysInMonth
  split_ifs <;> omega

theorem parseOffHHMM_render_end (off : Int) (hoff : off.natAbs ≤ 1439) (acc : ParseAcc) :
    parseTok .offHHMM (signedOff off) acc = some ([], { acc with offset := off }) := by
  have h := parseOffHHMM_render off hoff [] acc
  rwa [List.append_nil] at h

theorem parseOffColon_render_end (off : Int) (hoff : off.natAbs ≤ 1439) (acc : ParseAcc) :
    parseTok .offColon (signedOffColon off) acc = some ([], { acc with offset := off }) := by
  have h := parseOffColon_render off hoff [] acc
  rwa [List.append_nil] at h

theorem parseYear4_render_end (n : Nat) (hn : n < 10000) (acc : ParseAcc) :
    parseTok .year4 (pad4 n) acc = some ([], { acc with year := (n : Int) }) := by
  have h := parseYear4_render n hn [] acc
  rwa [List.append_nil] at h

theorem run_segHMS_end (h mi s : Nat) (hh : h ≤ 23) (hm : mi ≤ 59) (hs : s ≤ 59)
    (acc : ParseAcc) :
    runToks segHMS (pad2 h ++ ':' :: (pad2 mi ++ ':' :: pad2 s)) acc
      = some ([], { acc with hour := h, minute := mi, second := s }) := by
  have hx := run_segHMS h mi s hh hm hs [] acc rfl
  rwa [List.append_nil] at hx

theorem noFracHead_signColon (off : Int) : noFracHead (signedOffColon off) = true := by
  by_cases h : off < 0 <;> simp [signedOffColon, h, noFracHead]

theorem round0 (v : DateTime) (hm1 : 1 ≤ v.month) (hm2 : v.month ≤ 12)
    (hd1 : 1 ≤ v.day) (hd2 : v.day ≤ daysInMonth v.month v.year)
    (hh : v.hour ≤ 23) (hmi : v.minute ≤ 59) (hs : v.second ≤ 59)
    (hy1 : 1 ≤ v.year) (hy2 : v.year ≤ 9999) (ho : v.offset.natAbs ≤ 1439) :
    goParse fmt0 (goFormat fmt0 v) = some v := by
  have hd100 : v.day < 100 := by have := daysInMonth_le v.month v.year; omega
  have hy4 : v.year.toNat < 10000 := by omega
  have hyear : ((v.year.toNat : Int)) = v.year := Int.toNat_of_nonneg (by omega)
  have hrun : runToks fmt0 (goFormat fmt0 v).data {}
      = some ([], { year := v.year, month := v.month, day := v.day, hour := v.hour,
                    minute := v.minute, second := v.second, offset := v.offset }) := by
    rw [goFormat_data, renderFmt0]
    simp only [fmt0]
    rw [runToks_append_some (run_segWD _ (weekdayIdx_lt v) _ _),
      runToks_append_some (run_segD2 _ _ hd100 hm1 hm2 _ _),
      runToks_append_some (run_segY4 _ hy4 _ _),
      runToks_append_some (run_segHMS _ _ _ hh hmi hs _ _ (by rfl)),
      runToks_cons_some (parseLitSpace _ _),
      runToks_cons_some (parseOffHHMM_render_end _ ho _)]
    simp [runToks, hyear]
  rw [goParse_some hrun ⟨hd1, hd2⟩]

theorem round1 (v : DateTime) (hm1 : 1 ≤ v.month) (hm2 : v.month ≤ 12)
    (hd1 : 1 ≤ v.day) (hd2 : v.day ≤ daysInMonth v.month v.year)
    (hh : v.hour ≤ 23) (hmi : v.minute ≤ 59) (hs : v.second ≤ 59)
    (hy1 : 1 ≤ v.year) (hy2 : v.year ≤ 9999) (ho : v.offset.natAbs ≤ 1439) :
    goParse fmt1 (goFormat fmt1 v) = some v := by
  have hd100 : v.day < 100 := by have := daysInMonth_le v.month v.year; omega
  have hy4 : v.year.toNat < 10000 := by omega
  have hyear : ((v.year.toNat : Int)) = v.year := Int.toNat_of_nonneg (by omega)
  have hrun : runToks fmt1 (goFormat fmt1 v).data {}
      = some ([], { year := v.year, month := v.month, day := v.day, hour := v.hour,
                    minute := v.minute, second := v.second, offset := v.offset }) := by
    rw [goFormat_data, renderFmt1]
    simp only [fmt1, List.cons_append, List.nil_append]
    rw [runToks_cons_some (parseYear4_render _ hy4 _ _),
      runToks_cons_some (parseLitDash _ _),
      runToks_cons_some (parseMonth2_render _ hm1 hm2 _ _),
      runToks_cons_some (parseLitDash _ _),
      runToks_cons_some (parseDay2_render _ hd100 _ _),
      runToks_cons_some (parseLitT _ _),
      runToks_append_some (run_segHMS _ _ _ hh hmi hs _ _ (noFracHead_signColon _)),
      runToks_cons_some (parseOffColon_render_end _ ho _)]
    simp [runToks, hyear]
  rw [goParse_some hrun ⟨hd1, hd2⟩]

theorem round2 (v : DateTime) (hm1 : 1 ≤ v.month) (hm2 : v.month ≤ 12)
    (hd1 : 1 ≤ v.day) (hd2 : v.day ≤ daysInMonth v.month v.year)
    (hh : v.hour ≤ 23) (hmi : v.minute ≤ 59) (hs : v.second ≤ 59)
    (hy1 : 1 ≤ v.year) (hy2 : v.year ≤ 9999) (ho0 : v.offset = 0) :
    goParse fmt2 (goFormat fmt2 v) = some v := by
  have hd100 : v.day < 100 := by have := daysInMonth_le v.month v.year; omega
  have hy4 : v.year.toNat < 10000 := by omega
  have hyear : ((v.year.toNat : Int)) = v.year := Int.toNat_of_nonneg (by omega)
  have hrun : runToks fmt2 (goFormat fmt2 v).data {}
      = some ([], { year := v.year, month := v.month, day := v.day, hour := v.hour,
                    minute := v.minute, second := v.second, offset := v.offset }) := by
    rw [goFormat_data, renderFmt2]
    simp only [fmt2]
    rw [runToks_append_some (run_segWD _ (weekdayIdx_lt v) _ _),
      runToks_append_some (run_segD2 _ _ hd100 hm1 hm2 _ _),
      runToks_append_some (run_segY4 _ hy4 _ _),
      runToks_append_some (run_segHMS _ _ _ hh hmi hs _ _ (by rfl)),
      runToks_cons_some (parseLitSpaceZ _ _)]
    simp [runToks, hyear, ho0]
  rw [goParse_some hrun ⟨hd1, hd2⟩]

theorem round3 (v : DateTime) (hm1 : 1 ≤ v.month) (hm2 : v.month ≤ 12)
    (hd1 : 1 ≤ v.day) (hd2 : v.day ≤ daysInMonth v.month v.year)
    (hh : v.hour ≤ 23) (hmi : v.minute ≤ 59) (hs : v.second ≤ 59)
    (hy1 : 1 ≤ v.year) (hy2 : v.year ≤ 9999) (ho0 : v.offset = 0) :
    goParse fmt3 (goFormat fmt3 v) = some v := by
  have hd100 : v.day < 100 := by have := daysInMonth_le v.month v.year; omega
  have hy4 : v.year.toNat < 10000 := by omega
  have hyear : ((v.year.toNat : Int)) = v.year := Int.toNat_of_nonneg (by omega)
  have hrun : runToks fmt3 (goFormat fmt3 v).data {}
      = some ([], { year := v.year, month := v.month, day := v.day, hour := v.hour,
                    minute := v.minute, second := v.second, offset := v.offset }) := by
    rw [goFormat_data, renderFmt3]
    simp only [fmt3]
    rw [runToks_append_some (run_segWD _ (weekdayIdx_lt v) _ _),
      runToks_append_some (run_segD2 _ _ hd100 hm1 hm2 _ _),
      runToks_append_some (run_segY4 _ hy4 _ _),
      run_segHMS_end _ _ _ hh hmi hs _]
    simp [hyear, ho0]
  rw [goParse_some hrun ⟨hd1, hd2⟩]

theorem round4 (v : DateTime) (hm1 : 1 ≤ v.month) (hm2 : v.month ≤ 12)
    (hd1 : 1 ≤ v.day) (hd2 : v.day ≤ daysInMonth v.month v.year)
    (hh : v.hour ≤ 23) (hmi : v.minute ≤ 59) (hs : v.second ≤ 59)
    (hy1 : 1 ≤ v.year) (hy2 : v.year ≤ 9999) (ho : v.offset.natAbs ≤ 1439) :
    goParse fmt4 (goFormat fmt4 v) = some v := by
  have hd100 : v.day < 100 := by have := daysInMonth_le v.month v.year; omega
  have hy4 : v.year.toNat < 10000 := by omega
  have hyear : ((v.year.toNat : Int)) = v.year := Int.toNat_of_nonneg (by omega)
  have hrun : runToks fmt4 (goFormat fmt4 v).data {}
      = some ([], { year := v.year, month := v.month, day := v.day, hour := v.hour,
                    minute := v.minute, second := v.second, offset := v.offset }) := by
    rw [goFormat_data, renderFmt4]
    simp only [fmt4]
    rw [runToks_append_some (run_segWD _ (weekdayIdx_lt v) _ _),
      runToks_append_some (run_segD1 _ _ hd100 hm1 hm2 _ _),
      runToks_append_some (run_segY4 _ hy4 _ _),
      runToks_append_some (run_segHMS _ _ _ hh hmi hs _ _ (by rfl)),
      runToks_cons_some (parseLitSpace _ _),
      runToks_cons_some (parseOffHHMM_render_end _ ho _)]
    simp [runToks, hyear]
  rw [goParse_some hrun ⟨hd1, hd2⟩]

theorem round5 (v : DateTime) (hm1 : 1 ≤ v.month) (hm2 : v.month ≤ 12)
    (hd1 : 1 ≤ v.day) (hd2 : v.day ≤ daysInMonth v.month v.year)
    (hh : v.hour ≤ 23) (hmi : v.minute ≤ 59) (hs : v.second ≤ 59)
    (hy1 : 1 ≤ v.year) (hy2 : v.year ≤ 9999) (ho0 : v.offset = 0) :
    goParse fmt5 (goFormat fmt5 v) = some v := by
  have hd100 : v.day < 100 := by have := daysInMonth_le v.month v.year; omega
  have hy4 : v.year.toNat < 10000 := by omega
  have hyear : ((v.year.toNat : Int)) = v.year := Int.toNat_of_nonneg (by omega)
  have hrun : runToks fmt5 (goFormat fmt5 v).data {}
      = some ([], { year := v.year, month := v.month, day := v.day, hour := v.hour,
                    minute := v.minute, second := v.second, offset := v.offset }) := by
    rw [goFormat_data, renderFmt5]
    simp only [fmt5]
    rw [runToks_append_some (run_segWD _ (weekdayIdx_lt v) _ _),
      runToks_append_some (run_segD1 _ _ hd100 hm1 hm2 _ _),
      runToks_append_some (run_segY4 _ hy4 _ _),
      run_segHMS_end _ _ _ hh hmi hs _]
    simp [hyear, ho0]
  rw [goParse_some hrun ⟨hd1, hd2⟩]

theorem round6 (v : DateTime) (hm1 : 1 ≤ v.month) (hm2 : v.month ≤ 12)
    (hd1 : 1 ≤ v.day) (hd2 : v.day ≤ daysInMonth v.month v.year)
    (hh : v.hour ≤ 23) (hmi : v.minute ≤ 59) (hs : v.second ≤ 59)
    (hy1 : 1 ≤ v.year) (hy2 : v.year ≤ 9999) (ho : v.offset.natAbs ≤ 1439) :
    goParse fmt6 (goFormat fmt6 v) = some v := by
  have hd100 : v.day < 100 := by have := daysInMonth_le v.month v.year; omega
  have hy4 : v.year.toNat < 10000 := by omega
  have hyear : ((v.year.toNat : Int)) = v.year := Int.toNat_of_nonneg (by omega)
  have hrun : runToks fmt6 (goFormat fmt6 v).data {}
      = some ([], { year := v.year, month := v.month, day := v.day, hour := v.hour,
                    minute := v.minute, second := v.second, offset := v.offset }) := by
    rw [goFormat_data, renderFmt6]
    simp only [fmt6]
    rw [runToks_append_some (run_segD1 _ _ hd100 hm1 hm2 _ _),
      runToks_append_some (run_segY4 _ hy4 _ _),
      runToks_append_some (run_segHMS _ _ _ hh hmi hs _ _ (by rfl)),
      runToks_cons_some (parseLitSpace _ _),
      runToks_cons_some (parseOffHHMM_render_end _ ho _)]
    simp [runToks, hyear]
  rw [goParse_some hrun ⟨hd1, hd2⟩]

theorem round7 (v : DateTime) (hm1 : 1 ≤ v.month) (hm2 : v.month ≤ 12)
    (hd1 : 1 ≤ v.day) (hd2 : v.day ≤ daysInMonth v.month v.year)
    (hh : v.hour ≤ 23) (hmi : v.minute ≤ 59) (hs0 : v.second = 0)
    (hy1 : 1 ≤ v.year) (hy2 : v.year ≤ 9999) (ho : v.offset.natAbs ≤ 1439) :
    goParse fmt7 (goFormat fmt7 v) = some v := by
  have hd100 : v.day < 100 := by have := daysInMonth_le v.month v.year; omega
  have hy4 : v.year.toNat < 10000 := by omega
  have hyear : ((v.year.toNat : Int)) = v.year := Int.toNat_of_nonneg (by omega)
  have hrun : runToks fmt7 (goFormat fmt7 v).data {}
      = some ([], { year := v.year, month := v.month, day := v.day, hour := v.hour,
                    minute := v.minute, second := v.second, offset := v.offset }) := by
    rw [goFormat_data, renderFmt7]
    simp only [fmt7]
    rw [runToks_append_some (run_segWD _ (weekdayIdx_lt v) _ _),
      runToks_append_some (run_segD1 _ _ hd100 hm1 hm2 _ _),
      runToks_append_some (run_segY4 _ hy4 _ _),
      runToks_append_some (run_segHM _ _ hh hmi _ _),
      runToks_cons_some (parseLitSpace _ _),
      runToks_cons_some (parseOffHHMM_render_end _ ho _)]
    simp [runToks, hyear, hs0]
  rw [goParse_some hrun ⟨hd1, hd2⟩]

theorem round8 (v : DateTime) (hm1 : 1 ≤ v.month) (hm2 : v.month ≤ 12)
    (hd1 : 1 ≤ v.day) (hd2 : v.day ≤ daysInMonth v.month v.year)
    (hh : v.hour ≤ 23) (hmi : v.minute ≤ 59) (hs : v.second ≤ 59)
    (hy1 : 1969 ≤ v.year) (hy2 : v.year ≤ 2068) (ho : v.offset.natAbs ≤ 1439) :
    goParse fmt8 (goFormat fmt8 v) = some v := by
  have hd100 : v.day < 100 := by have := daysInMonth_le v.month v.year; omega
  have h0 : (0 : ℤ) ≤ v.year.emod 100 := Int.emod_nonneg _ (by norm_num)
  have h1 : v.year.emod 100 < 100 := Int.emod_lt_of_pos _ (by norm_num)
  have h2 : (((v.year.emod 100).toNat : ℤ)) = v.year % 100 := Int.toNat_of_nonneg h0
  have hn : (v.year.emod 100).toNat < 100 := by omega
  have hrun : runToks fmt8 (goFormat fmt8 v).data {}
      = some ([], { year := v.year, month := v.month, day := v.day, hour := v.hour,
                    minute := v.minute, second := v.second, offset := v.offset }) := by
    rw [goFormat_data, renderFmt8]
    simp only [fmt8]
    rw [runToks_append_some (run_segWD _ (weekdayIdx_lt v) _ _),
      runToks_append_some (run_segD1 _ _ hd100 hm1 hm2 _ _),
      runToks_append_some (run_segY2 _ hn _ _),
      runToks_append_some (run_segHMS _ _ _ hh hmi hs _ _ (by rfl)),
      runToks_cons_some (parseLitSpace _ _),
      runToks_cons_some (parseOffHHMM_render_end _ ho _)]
    simp [runToks]
    have hsup : v.year.emod 100 ⊔ 0 = v.year % 100 := sup_eq_left.mpr h0
    rw [hsup]
    by_cases h69 : 69 ≤ (v.year.emod 100).toNat <;> simp [h69] <;> omega
  rw [goParse_some hrun ⟨hd1, hd2⟩]

theorem round9 (v : DateTime) (hm1 : 1 ≤ v.month) (hm2 : v.month ≤ 12)
    (hd1 : 1 ≤ v.day) (hd2 : v.day ≤ daysInMonth v.month v.year)
    (hh0 : v.hour = 0) (hmi0 : v.minute = 0) (hs0 : v.second = 0)
    (hy1 : 1 ≤ v.year) (hy2 : v.year ≤ 9999) (ho0 : v.offset = 0) :
    goParse fmt9 (goFormat fmt9 v) = some v := by
  have hd100 : v.day < 100 := by have := daysInMonth_le v.month v.year; omega
  have hy4 : v.year.toNat < 10000 := by omega
  have hyear : ((v.year.toNat : Int)) = v.year := Int.toNat_of_nonneg (by omega)
  have hrun : runToks fmt9 (goFormat fmt9 v).data {}
      = some ([], { year := v.year, month := v.month, day := v.day, hour := v.hour,
                    minute := v.minute, second := v.second, offset := v.offset }) := by
    rw [goFormat_data, renderFmt9]
    simp only [fmt9]
    rw [runToks_cons_some (parseMonthLong_render _ hm1 hm2 _ _),
      runToks_cons_some (parseLitSpace _ _),
      runToks_cons_some (parseDay1_render _ hd100 _ _ (by rfl)),
      runToks_cons_some (parseLitCommaSpace _ _),
      runToks_cons_some (parseYear4_render_end _ hy4 _)]
    simp [runToks, hyear, hh0, hmi0, hs0, ho0]
  rw [goParse_some hrun ⟨hd1, hd2⟩]

/-! Every earlier layout fails on each rendered shape (except that, with
a two-digit day, layout 0 accepts the render of layout 4 and layout 3
that of layout 5 — those share the rendered string, handled via
`renderEq40` / `renderEq53`). -/

theorem pair01 (v : DateTime) (hy4 : v.year.toNat < 10000) :
    goParse fmt0 (goFormat fmt1 v) = none := by
  apply goParse_none_of_runToks
  rw [goFormat_data, renderFmt1]
  simp only [fmt0]
  exact runToks_append_none (fail_segWD_pad4 _ hy4 _ _)

theorem pair02 (v : DateTime) (hd100 : v.day < 100) (hm1 : 1 ≤ v.month)
    (hm2 : v.month ≤ 12) (hy4 : v.year.toNat < 10000) (hh : v.hour ≤ 23)
    (hmi : v.minute ≤ 59) (hs : v.second ≤ 59) :
    goParse fmt0 (goFormat fmt2 v) = none := by
  apply goParse_none_of_runToks
  rw [goFormat_data, renderFmt2]
  simp only [fmt0]
  rw [runToks_append_some (run_segWD _ (weekdayIdx_lt v) _ _),
    runToks_append_some (run_segD2 _ _ hd100 hm1 hm2 _ _),
    runToks_append_some (run_segY4 _ hy4 _ _),
    runToks_append_some (run_segHMS _ _ _ hh hmi hs _ _ (by rfl)),
    runToks_cons_some (parseLitSpace _ _)]
  exact runToks_cons_none (parseOffHHMM_fail_Z _ _)

theorem pair12 (v : DateTime) : goParse fmt1 (goFormat fmt2 v) = none := by
  apply goParse_none_of_runToks
  rw [goFormat_data, renderFmt2]
  simp only [fmt1, List.cons_append, List.nil_append]
  exact runToks_cons_none (parseYear4_fail_dayName _ (weekdayIdx_lt v) _ _)

theorem pair03 (v : DateTime) (hd100 : v.day < 100) (hm1 : 1 ≤ v.month)
    (hm2 : v.month ≤ 12) (hy4 : v.year.toNat < 10000) (hh : v.hour ≤ 23)
    (hmi : v.minute ≤ 59) (hs : v.second ≤ 59) :
    goParse fmt0 (goFormat fmt3 v) = none := by
  apply goParse_none_of_runToks
  rw [goFormat_data, renderFmt3]
  simp only [fmt0]
  rw [runToks_append_some (run_segWD _ (weekdayIdx_lt v) _ _),
    runToks_append_some (run_segD2 _ _ hd100 hm1 hm2 _ _),
    runToks_append_some (run_segY4 _ hy4 _ _),
    runToks_append_some (run_segHMS_end _ _ _ hh hmi hs _)]
  exact runToks_cons_none (parseLit_fail_nil ' ' [] _)

theorem pair13 (v : DateTime) : goParse fmt1 (goFormat fmt3 v) = none := by
  apply goParse_none_of_runToks
  rw [goFormat_data, renderFmt3]
  simp only [fmt1, List.cons_append, List.nil_append]
  exact runToks_cons_none (parseYear4_fail_dayName _ (weekdayIdx_lt v) _ _)

theorem pair23 (v : DateTime) (hd100 : v.day < 100) (hm1 : 1 ≤ v.month)
    (hm2 : v.month ≤ 12) (hy4 : v.year.toNat < 10000) (hh : v.hour ≤ 23)
    (hmi : v.minute ≤ 59) (hs : v.second ≤ 59) :
    goParse fmt2 (goFormat fmt3 v) = none := by
  apply goParse_none_of_runToks
  rw [goFormat_data, renderFmt3]
  simp only [fmt2]
  rw [runToks_append_some (run_segWD _ (weekdayIdx_lt v) _ _),
    runToks_append_some (run_segD2 _ _ hd100 hm1 hm2 _ _),
    runToks_append_some (run_segY4 _ hy4 _ _),
    runToks_append_some (run_segHMS_end _ _ _ hh hmi hs _)]
  exact runToks_cons_none (parseLit_fail_nil ' ' ['Z'] _)

theorem pair04s (v : DateTime) (hd : v.day < 10) :
    goParse fmt0 (goFormat fmt4 v) = none := by
  apply goParse_none_of_runToks
  rw [goFormat_data, renderFmt4]
  simp only [fmt0]
  rw [runToks_append_some (run_segWD _ (weekdayIdx_lt v) _ _)]
  exact runToks_append_none (fail_segD2_small _ hd _ _)

theorem pair14 (v : DateTime) : goParse fmt1 (goFormat fmt4 v) = none := by
  apply goParse_none_of_runToks
  rw [goFormat_data, renderFmt4]
  simp only [fmt1, List.cons_append, List.nil_append]
  exact runToks_cons_none (parseYear4_fail_dayName _ (weekdayIdx_lt v) _ _)

theorem pair24s (v : DateTime) (hd : v.day < 10) :
    goParse fmt2 (goFormat fmt4 v) = none := by
  apply goParse_none_of_runToks
  rw [goFormat_data, renderFmt4]
  simp only [fmt2]
  rw [runToks_append_some (run_segWD _ (weekdayIdx_lt v) _ _)]
  exact runToks_append_none (fail_segD2_small _ hd _ _)

theorem pair34s (v : DateTime) (hd : v.day < 10) :
    goParse fmt3 (goFormat fmt4 v) = none := by
  apply goParse_none_of_runToks
  rw [goFormat_data, renderFmt4]
  simp only [fmt3]
  rw [runToks_append_some (run_segWD _ (weekdayIdx_lt v) _ _)]
  exact runToks_append_none (fail_segD2_small _ hd _ _)

theorem pair05s (v : DateTime) (hd : v.day < 10) :
    goParse fmt0 (goFormat fmt5 v) = none := by
  apply goParse_none_of_runToks
  rw [goFormat_data, renderFmt5]
  simp only [fmt0]
  rw [runToks_append_some (run_segWD _ (weekdayIdx_lt v) _ _)]
  exact runToks_append_none (fail_segD2_small _ hd _ _)

theorem pair15 (v : DateTime) : goParse fmt1 (goFormat fmt5 v) = none := by
  apply goParse_none_of_runToks
  rw [goFormat_data, renderFmt5]
  simp only [fmt1, List.cons_append, List.nil_append]
  exact runToks_cons_none (parseYear4_fail_dayName _ (weekdayIdx_lt v) _ _)

theorem pair25s (v : DateTime) (hd : v.day < 10) :
    goParse fmt2 (goFormat fmt5 v) = none := by
  apply goParse_none_of_runToks
  rw [goFormat_data, renderFmt5]
  simp only [fmt2]
  rw [runToks_append_some (run_segWD _ (weekdayIdx_lt v) _ _)]
  exact runToks_append_none (fail_segD2_small _ hd _ _)

theorem pair35s (v : DateTime) (hd : v.day < 10) :
    goParse fmt3 (goFormat fmt5 v) = none := by
  apply goParse_none_of_runToks
  rw [goFormat_data, renderFmt5]
  simp only [fmt3]
  rw [runToks_append_some (run_segWD _ (weekdayIdx_lt v) _ _)]
  exact runToks_append_none (fail_segD2_small _ hd _ _)

theorem pair45 (v : DateTime) (hd100 : v.day < 100) (hm1 : 1 ≤ v.month)
    (hm2 : v.month ≤ 12) (hy4 : v.year.toNat < 10000) (hh : v.hour ≤ 23)
    (hmi : v.minute ≤ 59) (hs : v.second ≤ 59) :
    goParse fmt4 (goFormat fmt5 v) = none := by
  apply goParse_none_of_runToks
  rw [goFormat_data, renderFmt5]
  simp only [fmt4]
  rw [runToks_append_some (run_segWD _ (weekdayIdx_lt v) _ _),
    runToks_append_some (run_segD1 _ _ hd100 hm1 hm2 _ _),
    runToks_append_some (run_segY4 _ hy4 _ _),
    runToks_append_some (run_segHMS_end _ _ _ hh hmi hs _)]
  exact runToks_cons_none (parseLit_fail_nil ' ' [] _)

theorem pair06 (v : DateTime) (hd100 : v.day < 100) :
    goParse fmt0 (goFormat fmt6 v) = none := by
  apply goParse_none_of_runToks
  rw [goFormat_data, renderFmt6]
  simp only [fmt0]
  exact runToks_append_none (fail_segWD_noPad2 _ hd100 _ _)

theorem pair16 (v : DateTime) :
    goParse fmt1 (goFormat fmt6 v) = none := by
  apply goParse_none_of_runToks
  rw [goFormat_data, renderFmt6]
  simp only [fmt1, List.cons_append, List.nil_append]
  exact runToks_cons_none (parseYear4_fail_noPad2 _ _ _)

theorem pair26 (v : DateTime) (hd100 : v.day < 100) :
    goParse fmt2 (goFormat fmt6 v) = none := by
  apply goParse_none_of_runToks
  rw [goFormat_data, renderFmt6]
  simp only [fmt2]
  exact runToks_append_none (fail_segWD_noPad2 _ hd100 _ _)

theorem pair36 (v : DateTime) (hd100 : v.day < 100) :
    goParse fmt3 (goFormat fmt6 v) = none := by
  apply goParse_none_of_runToks
  rw [goFormat_data, renderFmt6]
  simp only [fmt3]
  exact runToks_append_none (fail_segWD_noPad2 _ hd100 _ _)

theorem pair46 (v : DateTime) (hd100 : v.day < 100) :
    goParse fmt4 (goFormat fmt6 v) = none := by
  apply goParse_none_of_runToks
  rw [goFormat_data, renderFmt6]
  simp only [fmt4]
  exact runToks_append_none (fail_segWD_noPad2 _ hd100 _ _)

theorem pair56 (v : DateTime) (hd100 : v.day < 100) :
    goParse fmt5 (goFormat fmt6 v) = none := by
  apply goParse_none_of_runToks
  rw [goFormat_data, renderFmt6]
  simp only [fmt5]
  exact runToks_append_none (fail_segWD_noPad2 _ hd100 _ _)

theorem fail_segD1_dayName (k : Nat) (hk : k < 7) (rest : List Char) (acc : ParseAcc) :
    runToks segD1 ((shortDayName k).data ++ rest) acc = none := by
  simp only [segD1]
  exact runToks_cons_none (parseDay1_fail_dayName k hk rest acc)

theorem fail_segD1_monthLong (m : Nat) (h1 : 1 ≤ m) (h2 : m ≤ 12) (rest : List Char)
    (acc : ParseAcc) : runToks segD1 ((longMonthName m).data ++ rest) acc = none := by
  simp only [segD1]
  exact runToks_cons_none (parseDay1_fail_monthLong m h1 h2 rest acc)

theorem pair07 (v : DateTime) (hd100 : v.day < 100) (hm1 : 1 ≤ v.month)
    (hm2 : v.month ≤ 12) (hy4 : v.year.toNat < 10000) (hh : v.hour ≤ 23)
    (hmi : v.minute ≤ 59) : goParse fmt0 (goFormat fmt7 v) = none := by
  apply goParse_none_of_runToks
  rw [goFormat_data, renderFmt7]
  simp only [fmt0]
  by_cases hd : v.day < 10
  · rw [runToks_append_some (run_segWD _ (weekdayIdx_lt v) _ _)]
    exact runToks_append_none (fail_segD2_small _ hd _ _)
  · rw [noPad2_big _ hd,
      runToks_append_some (run_segWD _ (weekdayIdx_lt v) _ _),
      runToks_append_some (run_segD2 _ _ hd100 hm1 hm2 _ _),
      runToks_append_some (run_segY4 _ hy4 _ _)]
    exact runToks_append_none (fail_segHMS_noSec _ _ hh hmi _ _)

theorem pair17 (v : DateTime) : goParse fmt1 (goFormat fmt7 v) = none := by
  apply goParse_none_of_runToks
  rw [goFormat_data, renderFmt7]
  simp only [fmt1, List.cons_append, List.nil_append]
  exact runToks_cons_none (parseYear4_fail_dayName _ (weekdayIdx_lt v) _ _)

theorem pair27 (v : DateTime) (hd100 : v.day < 100) (hm1 : 1 ≤ v.month)
    (hm2 : v.month ≤ 12) (hy4 : v.year.toNat < 10000) (hh : v.hour ≤ 23)
    (hmi : v.minute ≤ 59) : goParse fmt2 (goFormat fmt7 v) = none := by
  apply goParse_none_of_runToks
  rw [goFormat_data, renderFmt7]
  simp only [fmt2]
  by_cases hd : v.day < 10
  · rw [runToks_append_some (run_segWD _ (weekdayIdx_lt v) _ _)]
    exact runToks_append_none (fail_segD2_small _ hd _ _)
  · rw [noPad2_big _ hd,
      runToks_append_some (run_segWD _ (weekdayIdx_lt v) _ _),
      runToks_append_some (run_segD2 _ _ hd100 hm1 hm2 _ _),
      runToks_append_some (run_segY4 _ hy4 _ _)]
    exact runToks_append_none (fail_segHMS_noSec _ _ hh hmi _ _)

theorem pair37 (v : DateTime) (hd100 : v.day < 100) (hm1 : 1 ≤ v.month)
    (hm2 : v.month ≤ 12) (hy4 : v.year.toNat < 10000) (hh : v.hour ≤ 23)
    (hmi : v.minute ≤ 59) : goParse fmt3 (goFormat fmt7 v) = none := by
  apply goParse_none_of_runToks
  rw [goFormat_data, renderFmt7]
  simp only [fmt3]
  by_cases hd : v.day < 10
  · rw [runToks_append_some (run_segWD _ (weekdayIdx_lt v) _ _)]
    exact runToks_append_none (fail_segD2_small _ hd _ _)
  · rw [noPad2_big _ hd,
      runToks_append_some (run_segWD _ (weekdayIdx_lt v) _ _),
      runToks_append_some (run_segD2 _ _ hd100 hm1 hm2 _ _),
      runToks_append_some (run_segY4 _ hy4 _ _)]
    exact fail_segHMS_noSec _ _ hh hmi _ _

theorem pair47 (v : DateTime) (hd100 : v.day < 100) (hm1 : 1 ≤ v.month)
    (hm2 : v.month ≤ 12) (hy4 : v.year.toNat < 10000) (hh : v.hour ≤ 23)
    (hmi : v.minute ≤ 59) : goParse fmt4 (goFormat fmt7 v) = none := by
  apply goParse_none_of_runToks
  rw [goFormat_data, renderFmt7]
  simp only [fmt4]
  rw [runToks_append_some (run_segWD _ (weekdayIdx_lt v) _ _),
    runToks_append_some (run_segD1 _ _ hd100 hm1 hm2 _ _),
    runToks_append_some (run_segY4 _ hy4 _ _)]
  exact runToks_append_none (fail_segHMS_noSec _ _ hh hmi _ _)

theorem pair57 (v : DateTime) (hd100 : v.day < 100) (hm1 : 1 ≤ v.month)
    (hm2 : v.month ≤ 12) (hy4 : v.year.toNat < 10000) (hh : v.hour ≤ 23)
    (hmi : v.minute ≤ 59) : goParse fmt5 (goFormat fmt7 v) = none := by
  apply goParse_none_of_runToks
  rw [goFormat_data, renderFmt7]
  simp only [fmt5]
  rw [runToks_append_some (run_segWD _ (weekdayIdx_lt v) _ _),
    runToks_append_some (run_segD1 _ _ hd100 hm1 hm2 _ _),
    runToks_append_some (run_segY4 _ hy4 _ _)]
  exact fail_segHMS_noSec _ _ hh hmi _ _

theorem pair67 (v : DateTime) : goParse fmt6 (goFormat fmt7 v) = none := by
  apply goParse_none_of_runToks
  rw [goFormat_data, renderFmt7]
  simp only [fmt6]
  exact runToks_append_none (fail_segD1_dayName _ (weekdayIdx_lt v) _ _)

theorem pair08 (v : DateTime) (hd100 : v.day < 100) (hm1 : 1 ≤ v.month)
    (hm2 : v.month ≤ 12) : goParse fmt0 (goFormat fmt8 v) = none := by
  apply goParse_none_of_runToks
  rw [goFormat_data, renderFmt8]
  simp only [fmt0]
  by_cases hd : v.day < 10
  · rw [runToks_append_some (run_segWD _ (weekdayIdx_lt v) _ _)]
    exact runToks_append_none (fail_segD2_small _ hd _ _)
  · rw [noPad2_big _ hd,
      runToks_append_some (run_segWD _ (weekdayIdx_lt v) _ _),
      runToks_append_some (run_segD2 _ _ hd100 hm1 hm2 _ _)]
    exact runToks_append_none (fail_segY4_pad2 _ _ _)

theorem pair18 (v : DateTime) : goParse fmt1 (goFormat fmt8 v) = none := by
  apply goParse_none_of_runToks
  rw [goFormat_data, renderFmt8]
  simp only [fmt1, List.cons_append, List.nil_append]
  exact runToks_cons_none (parseYear4_fail_dayName _ (weekdayIdx_lt v) _ _)

theorem pair28 (v : DateTime) (hd100 : v.day < 100) (hm1 : 1 ≤ v.month)
    (hm2 : v.month ≤ 12) : goParse fmt2 (goFormat fmt8 v) = none := by
  apply goParse_none_of_runToks
  rw [goFormat_data, renderFmt8]
  simp only [fmt2]
  by_cases hd : v.day < 10
  · rw [runToks_append_some (run_segWD _ (weekdayIdx_lt v) _ _)]
    exact runToks_append_none (fail_segD2_small _ hd _ _)
  · rw [noPad2_big _ hd,
      runToks_append_some (run_segWD _ (weekdayIdx_lt v) _ _),
      runToks_append_some (run_segD2 _ _ hd100 hm1 hm2 _ _)]
    exact runToks_append_none (fail_segY4_pad2 _ _ _)

theorem pair38 (v : DateTime) (hd100 : v.day < 100) (hm1 : 1 ≤ v.month)
    (hm2 : v.month ≤ 12) : goParse fmt3 (goFormat fmt8 v) = none := by
  apply goParse_none_of_runToks
  rw [goFormat_data, renderFmt8]
  simp only [fmt3]
  by_cases hd : v.day < 10
  · rw [runToks_append_some (run_segWD _ (weekdayIdx_lt v) _ _)]
    exact runToks_append_none (fail_segD2_small _ hd _ _)
  · rw [noPad2_big _ hd,
      runToks_append_some (run_segWD _ (weekdayIdx_lt v) _ _),
      runToks_append_some (run_segD2 _ _ hd100 hm1 hm2 _ _)]
    exact runToks_append_none (fail_segY4_pad2 _ _ _)

theorem pair48 (v : DateTime) (hd100 : v.day < 100) (hm1 : 1 ≤ v.month)
    (hm2 : v.month ≤ 12) : goParse fmt4 (goFormat fmt8 v) = none := by
  apply goParse_none_of_runToks
  rw [goFormat_data, renderFmt8]
  simp only [fmt4]
  rw [runToks_append_some (run_segWD _ (weekdayIdx_lt v) _ _),
    runToks_append_some (run_segD1 _ _ hd100 hm1 hm2 _ _)]
  exact runToks_append_none (fail_segY4_pad2 _ _ _)

theorem pair58 (v : DateTime) (hd100 : v.day < 100) (hm1 : 1 ≤ v.month)
    (hm2 : v.month ≤ 12) : goParse fmt5 (goFormat fmt8 v) = none := by
  apply goParse_none_of_runToks
  rw [goFormat_data, renderFmt8]
  simp only [fmt5]
  rw [runToks_append_some (run_segWD _ (weekdayIdx_lt v) _ _),
    runToks_append_some (run_segD1 _ _ hd100 hm1 hm2 _ _)]
  exact runToks_append_none (fail_segY4_pad2 _ _ _)

theorem pair68 (v : DateTime) : goParse fmt6 (goFormat fmt8 v) = none := by
  apply goParse_none_of_runToks
  rw [goFormat_data, renderFmt8]
  simp only [fmt6]
  exact runToks_append_none (fail_segD1_dayName _ (weekdayIdx_lt v) _ _)

theorem pair78 (v : DateTime) (hd100 : v.day < 100) (hm1 : 1 ≤ v.month)
    (hm2 : v.month ≤ 12) : goParse fmt7 (goFormat fmt8 v) = none := by
  apply goParse_none_of_runToks
  rw [goFormat_data, renderFmt8]
  simp only [fmt7]
  rw [runToks_append_some (run_segWD _ (weekdayIdx_lt v) _ _),
    runToks_append_some (run_segD1 _ _ hd100 hm1 hm2 _ _)]
  exact runToks_append_none (fail_segY4_pad2 _ _ _)

theorem pair09 (v : DateTime) (hm1 : 1 ≤ v.month) (hm2 : v.month ≤ 12) :
    goParse fmt0 (goFormat fmt9 v) = none := by
  apply goParse_none_of_runToks
  rw [goFormat_data, renderFmt9]
  simp only [fmt0]
  exact runToks_append_none (fail_segWD_monthLong _ hm1 hm2 _ _)

theorem pair19 (v : DateTime) (hm1 : 1 ≤ v.month) (hm2 : v.month ≤ 12) :
    goParse fmt1 (goFormat fmt9 v) = none := by
  apply goParse_none_of_runToks
  rw [goFormat_data, renderFmt9]
  simp only [fmt1, List.cons_append, List.nil_append]
  exact runToks_cons_none (parseYear4_fail_monthLong _ hm1 hm2 _ _)

theorem pair29 (v : DateTime) (hm1 : 1 ≤ v.month) (hm2 : v.month ≤ 12) :
    goParse fmt2 (goFormat fmt9 v) = none := by
  apply goParse_none_of_runToks
  rw [goFormat_data, renderFmt9]
  simp only [fmt2]
  exact runToks_append_none (fail_segWD_monthLong _ hm1 hm2 _ _)

theorem pair39 (v : DateTime) (hm1 : 1 ≤ v.month) (hm2 : v.month ≤ 12) :
    goParse fmt3 (goFormat fmt9 v) = none := by
  apply goParse_none_of_runToks
  rw [goFormat_data, renderFmt9]
  simp only [fmt3]
  exact runToks_append_none (fail_segWD_monthLong _ hm1 hm2 _ _)

theorem pair49 (v : DateTime) (hm1 : 1 ≤ v.month) (hm2 : v.month ≤ 12) :
    goParse fmt4 (goFormat fmt9 v) = none := by
  apply goParse_none_of_runToks
  rw [goFormat_data, renderFmt9]
  simp only [fmt4]
  exact runToks_append_none (fail_segWD_monthLong _ hm1 hm2 _ _)

theorem pair59 (v : DateTime) (hm1 : 1 ≤ v.month) (hm2 : v.month ≤ 12) :
    goParse fmt5 (goFormat fmt9 v) = none := by
  apply goParse_none_of_runToks
  rw [goFormat_data, renderFmt9]
  simp only [fmt5]
  exact runToks_append_none (fail_segWD_monthLong _ hm1 hm2 _ _)

theorem pair69 (v : DateTime) (hm1 : 1 ≤ v.month) (hm2 : v.month ≤ 12) :
    goParse fmt6 (goFormat fmt9 v) = none := by
  apply goParse_none_of_runToks
  rw [goFormat_data, renderFmt9]
  simp only [fmt6]
  exact runToks_append_none (fail_segD1_monthLong _ hm1 hm2 _ _)

theorem pair79 (v : DateTime) (hm1 : 1 ≤ v.month) (hm2 : v.month ≤ 12) :
    goParse fmt7 (goFormat fmt9 v) = none := by
  apply goParse_none_of_runToks
  rw [goFormat_data, renderFmt9]
  simp only [fmt7]
  exact runToks_append_none (fail_segWD_monthLong _ hm1 hm2 _ _)

theorem pair89 (v : DateTime) (hm1 : 1 ≤ v.month) (hm2 : v.month ≤ 12) :
    goParse fmt8 (goFormat fmt9 v) = none := by
  apply goParse_none_of_runToks
  rw [goFormat_data, renderFmt9]
  simp only [fmt8]
  exact runToks_append_none (fail_segWD_monthLong _ hm1 hm2 _ _)

theorem shortDayName_ne_nil (k : Nat) (hk : k < 7) : (shortDayName k).data ≠ [] := by
  interval_cases k <;> decide

theorem longMonthName_ne_nil (m : Nat) (h1 : 1 ≤ m) (h2 : m ≤ 12) :
    (longMonthName m).data ≠ [] := by
  interval_cases m <;> decide

theorem noPad2_ne_nil (n : Nat) : noPad2 n ≠ [] := by
  by_cases h : n < 10 <;> simp [noPad2, pad2, h]

theorem goFormat_ne_empty (toks : List FmtTok) (v : DateTime)
    (h : renderToks toks v ≠ []) : goFormat toks v ≠ "" := fun he =>
  h (by have hd := congrArg String.data he; simpa [goFormat_data] using hd)

/-- Claim C6: for every layout in the supported list and every value
renderable under it, normalizing the rendered string succeeds with no
error and recovers a timestamp equal (as an instant — in fact
identical) to the value; the layouts are tried in their listed order
and the first successful match wins, which is harmless because every
earlier layout either rejects the rendered string or (for the shared
two-digit-day renderings of layouts 4 and 5) accepts it with the same
value. -/
theorem claim_C6 (L : List FmtTok) (hL : L ∈ supportedRSS2TimeFormats) (v : DateTime)
    (hr : renderable L v) :
    ∃ w, parseRSS2Time (goFormat L v) = (w, none) ∧ toInstant w = toInstant v := by
  refine ⟨v, ?_, rfl⟩
  obtain ⟨hm1, hm2, hd1, hd2, hh, hmi, hs, hy, hoff, hsec, hhm⟩ := hr
  have hd100 : v.day < 100 := by have := daysInMonth_le v.month v.year; omega
  simp only [supportedRSS2TimeFormats, List.mem_cons, List.not_mem_nil, or_false] at hL
  rcases hL with rfl | rfl | rfl | rfl | rfl | rfl | rfl | rfl | rfl | rfl
  · -- fmt0
    rw [if_neg (by decide)] at hy
    rw [if_pos (by decide)] at hoff
    obtain ⟨hy1, hy2⟩ := hy
    apply parseRSS2Time_of_parseTime
      (goFormat_ne_empty _ _ (by
        rw [renderFmt0]; simp [shortDayName_ne_nil _ (weekdayIdx_lt v)]))
    have h0 := round0 v hm1 hm2 hd1 hd2 hh hmi hs hy1 hy2 hoff
    simp [parseTime, supportedRSS2TimeFormats, List.findSome?, h0]
  · -- fmt1
    rw [if_neg (by decide)] at hy
    rw [if_pos (by decide)] at hoff
    obtain ⟨hy1, hy2⟩ := hy
    apply parseRSS2Time_of_parseTime
      (goFormat_ne_empty _ _ (by rw [renderFmt1]; simp [pad4]))
    have h0 := pair01 v (by omega)
    have h1 := round1 v hm1 hm2 hd1 hd2 hh hmi hs hy1 hy2 hoff
    simp [parseTime, supportedRSS2TimeFormats, List.findSome?, h0, h1]
  · -- fmt2
    rw [if_neg (by decide)] at hy
    rw [if_neg (by decide)] at hoff
    obtain ⟨hy1, hy2⟩ := hy
    have hy4 : v.year.toNat < 10000 := by omega
    apply parseRSS2Time_of_parseTime
      (goFormat_ne_empty _ _ (by
        rw [renderFmt2]; simp [shortDayName_ne_nil _ (weekdayIdx_lt v)]))
    have h0 := pair02 v hd100 hm1 hm2 hy4 hh hmi hs
    have h1 := pair12 v
    have h2 := round2 v hm1 hm2 hd1 hd2 hh hmi hs hy1 hy2 hoff
    simp [parseTime, supportedRSS2TimeFormats, List.findSome?, h0, h1, h2]
  · -- fmt3
    rw [if_neg (by decide)] at hy
    rw [if_neg (by decide)] at hoff
    obtain ⟨hy1, hy2⟩ := hy
    have hy4 : v.year.toNat < 10000 := by omega
    apply parseRSS2Time_of_parseTime
      (goFormat_ne_empty _ _ (by
        rw [renderFmt3]; simp [shortDayName_ne_nil _ (weekdayIdx_lt v)]))
    have h0 := pair03 v hd100 hm1 hm2 hy4 hh hmi hs
    have h1 := pair13 v
    have h2 := pair23 v hd100 hm1 hm2 hy4 hh hmi hs
    have h3 := round3 v hm1 hm2 hd1 hd2 hh hmi hs hy1 hy2 hoff
    simp [parseTime, supportedRSS2TimeFormats, List.findSome?, h0, h1, h2, h3]
  · -- fmt4
    rw [if_neg (by decide)] at hy
    rw [if_pos (by decide)] at hoff
    obtain ⟨hy1, hy2⟩ := hy
    apply parseRSS2Time_of_parseTime
      (goFormat_ne_empty _ _ (by
        rw [renderFmt4]; simp [shortDayName_ne_nil _ (weekdayIdx_lt v)]))
    by_cases hd : v.day < 10
    · have h0 := pair04s v hd
      have h1 := pair14 v
      have h2 := pair24s v hd
      have h3 := pair34s v hd
      have h4 := round4 v hm1 hm2 hd1 hd2 hh hmi hs hy1 hy2 hoff
      simp [parseTime, supportedRSS2TimeFormats, List.findSome?, h0, h1, h2, h3, h4]
    · have heq : goFormat fmt4 v = goFormat fmt0 v := by
        show (⟨renderToks fmt4 v⟩ : String) = ⟨renderToks fmt0 v⟩
        rw [renderEq40 v hd]
      rw [heq]
      have h0 := round0 v hm1 hm2 hd1 hd2 hh hmi hs hy1 hy2 hoff
      simp [parseTime, supportedRSS2TimeFormats, List.findSome?, h0]
  · -- fmt5
    rw [if_neg (by decide)] at hy
    rw [if_neg (by decide)] at hoff
    obtain ⟨hy1, hy2⟩ := hy
    have hy4 : v.year.toNat < 10000 := by omega
    apply parseRSS2Time_of_parseTime
      (goFormat_ne_empty _ _ (by
        rw [renderFmt5]; simp [shortDayName_ne_nil _ (weekdayIdx_lt v)]))
    by_cases hd : v.day < 10
    · have h0 := pair05s v hd
      have h1 := pair15 v
      have h2 := pair25s v hd
      have h3 := pair35s v hd
      have h4 := pair45 v hd100 hm1 hm2 hy4 hh hmi hs
      have h5 := round5 v hm1 hm2 hd1 hd2 hh hmi hs hy1 hy2 hoff
      simp [parseTime, supportedRSS2TimeFormats, List.findSome?, h0, h1, h2, h3, h4, h5]
    · have heq : goFormat fmt5 v = goFormat fmt3 v := by
        show (⟨renderToks fmt5 v⟩ : String) = ⟨renderToks fmt3 v⟩
        rw [renderEq53 v hd]
      rw [heq]
      have h0 := pair03 v hd100 hm1 hm2 hy4 hh hmi hs
      have h1 := pair13 v
      have h2 := pair23 v hd100 hm1 hm2 hy4 hh hmi hs
      have h3 := round3 v hm1 hm2 hd1 hd2 hh hmi hs hy1 hy2 hoff
      simp [parseTime, supportedRSS2TimeFormats, List.findSome?, h0, h1, h2, h3]
  · -- fmt6
    rw [if_neg (by decide)] at hy
    rw [if_pos (by decide)] at hoff
    obtain ⟨hy1, hy2⟩ := hy
    apply parseRSS2Time_of_parseTime
      (goFormat_ne_empty _ _ (by rw [renderFmt6]; simp [noPad2_ne_nil]))
    have h0 := pair06 v hd100
    have h1 := pair16 v
    have h2 := pair26 v hd100
    have h3 := pair36 v hd100
    have h4 := pair46 v hd100
    have h5 := pair56 v hd100
    have h6 := round6 v hm1 hm2 hd1 hd2 hh hmi hs hy1 hy2 hoff
    simp [parseTime, supportedRSS2TimeFormats, List.findSome?, h0, h1, h2, h3, h4, h5, h6]
  · -- fmt7
    rw [if_neg (by decide)] at hy
    rw [if_pos (by decide)] at hoff
    obtain ⟨hy1, hy2⟩ := hy
    have hy4 : v.year.toNat < 10000 := by omega
    have hs0 : v.second = 0 := hsec (by decide)
    apply parseRSS2Time_of_parseTime
      (goFormat_ne_empty _ _ (by
        rw [renderFmt7]; simp [shortDayName_ne_nil _ (weekdayIdx_lt v)]))
    have h0 := pair07 v hd100 hm1 hm2 hy4 hh hmi
    have h1 := pair17 v
    have h2 := pair27 v hd100 hm1 hm2 hy4 hh hmi
    have h3 := pair37 v hd100 hm1 hm2 hy4 hh hmi
    have h4 := pair47 v hd100 hm1 hm2 hy4 hh hmi
    have h5 := pair57 v hd100 hm1 hm2 hy4 hh hmi
    have h6 := pair67 v
    have h7 := round7 v hm1 hm2 hd1 hd2 hh hmi hs0 hy1 hy2 hoff
    simp [parseTime, supportedRSS2TimeFormats, List.findSome?, h0, h1, h2, h3, h4, h5,
      h6, h7]
  · -- fmt8
    rw [if_pos (by decide)] at hy
    rw [if_pos (by decide)] at hoff
    obtain ⟨hy1, hy2⟩ := hy
    apply parseRSS2Time_of_parseTime
      (goFormat_ne_empty _ _ (by
        rw [renderFmt8]; simp [shortDayName_ne_nil _ (weekdayIdx_lt v)]))
    have h0 := pair08 v hd100 hm1 hm2
    have h1 := pair18 v
    have h2 := pair28 v hd100 hm1 hm2
    have h3 := pair38 v hd100 hm1 hm2
    have h4 := pair48 v hd100 hm1 hm2
    have h5 := pair58 v hd100 hm1 hm2
    have h6 := pair68 v
    have h7 := pair78 v hd100 hm1 hm2
    have h8 := round8 v hm1 hm2 hd1 hd2 hh hmi hs hy1 hy2 hoff
    simp [parseTime, supportedRSS2TimeFormats, List.findSome?, h0, h1, h2, h3, h4, h5,
      h6, h7, h8]
  · -- fmt9
    rw [if_neg (by decide)] at hy
    rw [if_neg (by decide)] at hoff
    obtain ⟨hy1, hy2⟩ := hy
    have hs0 : v.second = 0 := hsec (by decide)
    obtain ⟨hh0, hmi0⟩ := hhm (by decide)
    apply parseRSS2Time_of_parseTime
      (goFormat_ne_empty _ _ (by
        rw [renderFmt9]; simp [longMonthName_ne_nil _ hm1 hm2]))
    have h0 := pair09 v hm1 hm2
    have h1 := pair19 v hm1 hm2
    have h2 := pair29 v hm1 hm2
    have h3 := pair39 v hm1 hm2
    have h4 := pair49 v hm1 hm2
    have h5 := pair59 v hm1 hm2
    have h6 := pair69 v hm1 hm2
    have h7 := pair79 v hm1 hm2
    have h8 := pair89 v hm1 hm2
    have h9 := round9 v hm1 hm2 hd1 hd2 hh0 hmi0 hs0 hy1 hy2 hoff
    simp [parseTime, supportedRSS2TimeFormats, List.findSome?, h0, h1, h2, h3, h4, h5,
      h6, h7, h8, h9]

/-- Concrete instance of C6: the reference value rendered under the
first layout round-trips through the normalizer. -/
theorem claim_C6_witness :
    renderable fmt0
      { year := 2006, month := 1, day := 2, hour := 15, minute := 4, second := 5,
        offset := -420 } ∧
    ∃ w,
      parseRSS2Time (goFormat fmt0
        { year := 2006, month := 1, day := 2, hour := 15, minute := 4, second := 5,
          offset := -420 }) = (w, none) ∧
      toInstant w
        = toInstant
            { year := 2006, month := 1, day := 2, hour := 15, minute := 4, second := 5,
              offset := -420 } :=
  ⟨by decide,
    claim_C6 fmt0 (by decide)
      { year := 2006, month := 1, day := 2, hour := 15, minute := 4, second := 5,
        offset := -420 } (by decide)⟩

end Gofr
